import Mathlib

/-!
Shallow embedding of the containerized test-execution and result-collection
subsystem of the poly-micro-backend repository, centred on
src/app/services/test_service.py (class TestService) together with the enums
and pydantic schemas it uses (src/app/schemas/test.py, src/app/schemas/log.py,
src/app/schemas/service_tests.py).

Modelling conventions:
- Timestamps (datetime.now()) are natural numbers drawn from a monotone clock
  threaded through a `World` value; `total_seconds` of a difference is the
  integer difference of the two clock values.
- Log-entry ids returned by LogService.create_log are consecutive naturals
  handed out by the log sink in the `World`.
- The run-metadata directory tree (one metadata.json per (project, run))
  becomes an association list keyed by (project_id, run_id); writing the file
  is a keyed overwrite, os.listdir order is an arbitrary list order.
- External effects (docker availability, the exec/copy subprocesses, the
  report artifact on disk, the pytest collect-only output, the mongo test
  catalog) are oracles passed in as explicit environment records.
- Python exceptions are explicit `PyErr` values threaded next to the mutated
  state, since an except-block observes all mutations made before the raise.
- Enum attribute access in Python is getattr by name, which raises
  AttributeError for a name the enum does not define.  The source refers to
  `Severity.WARNING` and `TestStatus.COMPLETED`, neither of which exists in
  the corresponding enum (schemas define `WARN`, and no `COMPLETED`), so those
  lookups are embedded through the partial member tables below.
- pydantic models silently drop unknown constructor keywords (default
  `extra=ignore` in both v1 and v2), so the `metadata=...` keyword passed to
  `LogCreate` (which declares no such field) does not become part of the log
  record; log payloads are embedded with the fields LogCreate declares.
-/

namespace PolyMicro

/-- Test execution status enumeration, from app/schemas/test.py (TestStatus):
PENDING, RUNNING, PASSED, FAILED, ERROR, SKIPPED. -/
inductive TestStatus where
  | pending
  | running
  | passed
  | failed
  | error
  | skipped
deriving DecidableEq, Repr

/-- String value of a TestStatus member, as in the Python enum. -/
def statusValue : TestStatus → String
  | .pending => "pending"
  | .running => "running"
  | .passed => "passed"
  | .failed => "failed"
  | .error => "error"
  | .skipped => "skipped"

/-- Log severity enum, from app/schemas/log.py (Severity): DEBUG, INFO, WARN,
ERROR, CRITICAL. -/
inductive Severity where
  | debug
  | info
  | warn
  | error
  | critical
deriving DecidableEq, Repr

/-- Member lookup on the Severity enum by attribute name.  The enum defines
DEBUG, INFO, WARN, ERROR and CRITICAL only; looking up any other name (the
source writes `Severity.WARNING` at test_service.py lines 276, 325, 394, 722
and 953) raises AttributeError in Python, modelled here by `none`. -/
def severityAttr : String → Option Severity
  | "DEBUG" => some .debug
  | "INFO" => some .info
  | "WARN" => some .warn
  | "ERROR" => some .error
  | "CRITICAL" => some .critical
  | _ => none

/-- Member lookup on the TestStatus enum by attribute name.  The source writes
`TestStatus.COMPLETED` at test_service.py line 1007, a member the enum does
not define, so that lookup raises AttributeError (`none` here). -/
def testStatusAttr : String → Option TestStatus
  | "PENDING" => some .pending
  | "RUNNING" => some .running
  | "PASSED" => some .passed
  | "FAILED" => some .failed
  | "ERROR" => some .error
  | "SKIPPED" => some .skipped
  | _ => none

/-- Python exception values observed by the orchestration code. -/
inductive PyErr where
  | attr (name : String)
  | runtime (msg : String)
  | typeErr (msg : String)
  | exc (msg : String)
deriving DecidableEq, Repr

/-- Rendering used where the source interpolates str(e) into a message. -/
def pyStr : PyErr → String
  | .attr n => n
  | .runtime m => m
  | .typeErr m => m
  | .exc m => m

/-- One per-case entry of the pytest JSON report (`tests` array element); every
field is read with a .get default in the source, hence all optional. -/
structure TestCase where
  nodeid : Option String := none
  outcome : Option String := none
  duration : Option Int := none
  call_longrepr : Option String := none
  crash : Option String := none
deriving DecidableEq, Repr

/-- The `summary` object of the pytest JSON report; every count is read with
.get(key, 0) in the source. -/
structure Summary where
  total : Option Int := none
  passed : Option Int := none
  failed : Option Int := none
  error : Option Int := none
  skipped : Option Int := none
deriving DecidableEq, Repr

/-- Value of `report_data.get('summary', {})` when the key is absent. -/
def emptySummary : Summary := {}

/-- Parsed shape of the report artifact consumed by result processing. -/
structure Report where
  summary : Option Summary := none
  tests : List TestCase := []
deriving DecidableEq, Repr

/-- State of the report artifact file for one run: the file may be absent,
present but failing json.load (carrying the exception text), or parsed. -/
inductive Artifact where
  | missing
  | malformed (excMsg : String)
  | parsed (r : Report)
deriving DecidableEq, Repr

/-- Payload accepted by LogService.create_log, from app/schemas/log.py
(LogCreate/LogBase): project_id, service_id, test_id, func_id, message,
severity, timestamp, source.  The schema declares no metadata field, so the
metadata keyword arguments passed at the call sites in test_service.py are
dropped by pydantic and do not appear here. -/
structure LogCreate where
  project_id : String
  service_id : String
  test_id : Option String := none
  func_id : Option String := none
  message : String
  severity : Severity
  timestamp : Option String := none
  source : Option String := none
deriving DecidableEq, Repr

/-- The log sink (LogService backed by the document store): hands out
consecutive ids and keeps every created entry in creation order. -/
structure LogSink where
  nextId : Nat := 0
  entries : List (Nat × LogCreate) := []
deriving DecidableEq, Repr

/-- Auxiliary values stored in a run's free-form metadata bag. -/
inductive MetaVal where
  | str (v : String)
  | report (r : Report)
deriving DecidableEq, Repr

/-- Central run record, from app/schemas/test.py (TestRunResult). -/
structure TestRunResult where
  id : String
  project_id : String
  service_id : String
  test_path : String
  test_id : Option String := none
  status : TestStatus
  start_time : Nat
  end_time : Option Nat := none
  duration_seconds : Option Int := none
  total_tests : Int := 0
  passed_tests : Int := 0
  failed_tests : Int := 0
  error_tests : Int := 0
  skipped_tests : Int := 0
  log_ids : List Nat := []
  metadata : Option (List (String × MetaVal)) := none
deriving DecidableEq, Repr

/-- Input of create_test_run, from app/schemas/test.py (TestRunCreate). -/
structure TestRunCreate where
  project_id : String
  service_id : String
  test_path : String
  test_id : Option String := none
deriving DecidableEq, Repr

/-- Decimal digit character (used by the timestamp serialization model). -/
def isoDigit : Nat → Char
  | 0 => '0'
  | 1 => '1'
  | 2 => '2'
  | 3 => '3'
  | 4 => '4'
  | 5 => '5'
  | 6 => '6'
  | 7 => '7'
  | 8 => '8'
  | _ => '9'

/-- Fixed-width big-endian decimal rendering of a natural number. -/
def isoChars : Nat → Nat → List Char
  | 0, _ => []
  | w + 1, n => isoChars w (n / 10) ++ [isoDigit (n % 10)]

/-- Model of datetime.isoformat() on the Nat-valued clock: a fixed-width
canonical decimal string.  Like ISO-8601 timestamps of a common era it is
injective and lexicographically ordered like the underlying instants (proved
below for instants under 10^20). -/
def iso (t : Nat) : String := String.mk (isoChars 20 t)

/-- Serialized form of one run's metadata.json, written by
_save_test_run_metadata: the whole run snapshot (model_dump of every field)
with the two datetime fields rendered through isoformat.  Reading the file
back (get_test_run) re-parses the isoformat strings into the same instants,
so the snapshot carries its field data alongside the rendered strings. -/
structure StoredRecord where
  data : TestRunResult
  start_time_s : String
  end_time_s : Option String := none
deriving DecidableEq, Repr

/-- Serialization performed by _save_test_run_metadata (lines 496-513). -/
def serialize (tr : TestRunResult) : StoredRecord :=
  { data := tr, start_time_s := iso tr.start_time, end_time_s := tr.end_time.map iso }

/-- Parse performed by TestRunResult(**metadata) when a record is read back. -/
def deserialize (r : StoredRecord) : TestRunResult := r.data

/-- The run-metadata store: one record per (project_id, run_id), in arbitrary
directory-listing order. -/
abbrev Store := List ((String × String) × StoredRecord)

/-- Keyed overwrite in an association list (Python dict update / rewriting one
file in a keyed directory layout). -/
def assocSet {α β : Type} [DecidableEq α] (l : List (α × β)) (k : α) (v : β) :
    List (α × β) :=
  if l.any (fun p => decide (p.1 = k)) then
    l.map (fun p => if p.1 = k then (k, v) else p)
  else
    l ++ [(k, v)]

/-- Keyed full overwrite of one record (writing metadata.json). -/
def storeSet (s : Store) (k : String × String) (v : StoredRecord) : Store :=
  assocSet s k v

/-- Lookup of one record by its full key. -/
def storeGet (s : Store) (k : String × String) : Option StoredRecord :=
  (s.find? (fun p => decide (p.1 = k))).map (fun p => p.2)

/-- Discovered test item as constructed by _create_test_item_from_nodeid; the
field list follows the keyword arguments of the constructor call (lines
800-808), which coincide with the TestItem schema of
app/schemas/service_tests.py. -/
structure TestItem where
  id : String
  name : String
  path : String
  nodeid : String
  type : String
  class_name : Option String := none
  module_name : String
deriving DecidableEq, Repr

/-- One raw document of the poly_micro_tests catalog, as read through
.get(...) defaults in collect_service_tests (lines 598-616). -/
structure DbTest where
  oid : Option String := none
  name : Option String := none
  type : Option String := none
  status : Option String := none
  duration : Option String := none
deriving DecidableEq, Repr

/-- Test object synthesized from a catalog document (lines 600-616). -/
structure DbTestObj where
  id : String
  name : String
  type : String
  status : String
  path : String
  nodeid : String
  module_name : String
  class_name : String
  function_name : String
  line_number : Nat
  parameters : List String
  is_parameterized : Bool
  duration : String
  result : String
  test_id : String
deriving DecidableEq, Repr

/-- Element of ServiceTestsResponse.tests: the source appends both TestItem
objects (filesystem discovery) and plain synthesized dicts (catalog rows) to
the same Python list. -/
inductive CollectedTest where
  | fsItem (t : TestItem)
  | dbItem (o : DbTestObj)
deriving DecidableEq, Repr

/-- Discovery result, from app/schemas/service_tests.py
(ServiceTestsResponse); metadata is a string-valued bag here since every value
the source stores in it is a string. -/
structure ServiceTestsResponse where
  service_id : String
  service_name : String
  project_id : String
  discovery_time : Nat
  tests : List CollectedTest := []
  metadata : List (String × String) := []
deriving DecidableEq, Repr

/-- Keyed overwrite in a string-valued metadata bag (Python dict update). -/
def metaSet (l : List (String × String)) (k v : String) : List (String × String) :=
  assocSet l k v

/-- Lookup in a string-valued metadata bag. -/
def metaGet (l : List (String × String)) (k : String) : Option String :=
  (l.find? (fun p => decide (p.1 = k))).map (fun p => p.2)

/-- Keyed overwrite in a run's free-form metadata bag. -/
def runMetaSet (l : List (String × MetaVal)) (k : String) (v : MetaVal) :
    List (String × MetaVal) :=
  assocSet l k v

/-- Ambient state threaded through the service: the monotone clock behind
datetime.now(), the uuid source behind uuid4(), the log sink, the run-metadata
store and the per-(project, service) discovery cache written by
_save_service_tests. -/
structure World where
  clock : Nat := 0
  nextUuid : Nat := 0
  sink : LogSink := {}
  store : Store := []
  svcTests : List ((String × String) × ServiceTestsResponse) := []

/-- Reading datetime.now(): returns the current instant and advances the
clock, so successive reads are strictly increasing. -/
def World.tick (w : World) : Nat × World :=
  (w.clock, { w with clock := w.clock + 1 })

/-- Drawing a fresh uuid4 value (opaque unique string). -/
def World.freshUuid (w : World) : String × World :=
  ("uuid-" ++ toString w.nextUuid, { w with nextUuid := w.nextUuid + 1 })

/-- LogService.create_log: stores the payload and returns the generated id. -/
def World.createLog (w : World) (lc : LogCreate) : Nat × World :=
  (w.sink.nextId,
    { w with sink := { nextId := w.sink.nextId + 1,
                       entries := w.sink.entries ++ [(w.sink.nextId, lc)] } })

/-- TestService._save_test_run_metadata (lines 496-513): serialize the whole
run snapshot and overwrite its metadata.json record. -/
def save_test_run_metadata (tr : TestRunResult) (w : World) : World :=
  { w with store := storeSet w.store (tr.project_id, tr.id) (serialize tr) }

/-- TestService.get_test_run (lines 413-429): scan all project directories for
a run directory with this id and parse its metadata.json. -/
def get_test_run (s : Store) (run_id : String) : Option TestRunResult :=
  (s.find? (fun p => decide (p.1.2 = run_id))).map (fun p => deserialize p.2)

/-- Model of Python str.split("::") on the character list: split at each
non-overlapping left-to-right occurrence of "::" (the accumulator holds the
current field reversed). -/
def splitCC : List Char → List Char → List (List Char)
  | [], acc => [acc.reverse]
  | ':' :: ':' :: rest, acc => acc.reverse :: splitCC rest []
  | c :: rest, acc => splitCC rest (c :: acc)

/-- Python nodeid.split("::") as a String operation. -/
def pySplitCC (s : String) : List String := (splitCC s.data []).map String.mk

/-- Python str.startswith. -/
def pyStartsWith (s p : String) : Bool := p.data.isPrefixOf s.data

/-- Python os.path.basename on the character list: the suffix after the last
slash. -/
def basenameChars (cs : List Char) : List Char :=
  cs.foldl (fun acc c => if c = '/' then [] else acc ++ [c]) []

/-- Module name derived from a path in _create_test_item_from_nodeid (lines
778-781): basename with a trailing ".py" removed. -/
def moduleNameOfPath (path : String) : String :=
  let b := basenameChars path.data
  if ['.', 'p', 'y'].isSuffixOf b then String.mk (b.take (b.length - 3))
  else String.mk b

/-- Model of Python str.split on a newline character. -/
def splitNL : List Char → List Char → List (List Char)
  | [], acc => [acc.reverse]
  | '\n' :: rest, acc => acc.reverse :: splitNL rest []
  | c :: rest, acc => splitNL rest (c :: acc)

/-- Whitespace recognizer of Python str.strip. -/
def isPySpace (c : Char) : Bool :=
  c == ' ' || c == '\t' || c == '\n' || c == '\r' || c == '\x0b' || c == '\x0c'

/-- Python str.strip with no arguments. -/
def pyStrip (s : String) : String :=
  String.mk (((s.data.dropWhile isPySpace).reverse.dropWhile isPySpace).reverse)

/-- Python str.lower. -/
def pyLower (s : String) : String := String.mk (s.data.map Char.toLower)

/-- TestService._parse_pytest_collect_output (lines 639-643): split the
collect-only stdout into stripped non-empty lines. -/
def parse_pytest_collect_output (output : String) : List String :=
  ((splitNL (pyStrip output).data []).map (fun l => pyStrip (String.mk l))).filter
    (fun s => decide (s ≠ ""))

/-- TestService._create_test_item_from_nodeid (lines 772-808): parse a pytest
node identifier of shape path[::segment]* into a TestItem.  The uuid suffix of
the generated id is passed in explicitly (uuid4().hex[:8] in the source). -/
def create_test_item_from_nodeid (nodeid : String) (index : Nat) (uuidHex : String) :
    TestItem :=
  let parts := pySplitCC nodeid
  let path := parts.headD ""
  let module_name := moduleNameOfPath path
  let genId := "test_" ++ toString index ++ "_" ++ uuidHex
  if parts.length = 3 then
    { id := genId, name := parts.getD 2 "", path := path, nodeid := nodeid,
      type := "method", class_name := some (parts.getD 1 ""), module_name := module_name }
  else if parts.length = 2 then
    let seg := parts.getD 1 ""
    if pyStartsWith seg "Test" && !(pyStartsWith seg "test_") then
      { id := genId, name := seg, path := path, nodeid := nodeid,
        type := "class", class_name := none, module_name := module_name }
    else
      { id := genId, name := seg, path := path, nodeid := nodeid,
        type := "function", class_name := none, module_name := module_name }
  else
    { id := genId, name := nodeid, path := path, nodeid := nodeid,
      type := "unknown", class_name := none, module_name := module_name }

/-- Log payload of the run-started entry (create_test_run lines 72-85). -/
def startLogPayload (p : TestRunCreate) (run_id : String) : LogCreate :=
  { project_id := p.project_id, service_id := p.service_id, test_id := some run_id,
    message := "Test run started: " ++ p.test_path, severity := .info,
    source := some "test_service" }

/-- Log payload of one per-case entry in _process_test_results (lines 327-337). -/
def caseLogPayload (run : TestRunResult) (tc : TestCase) (sev : Severity) : LogCreate :=
  { project_id := run.project_id, service_id := run.service_id, test_id := some run.id,
    message := "Test case " ++ tc.nodeid.getD "unknown" ++ ": " ++ tc.outcome.getD "unknown",
    severity := sev, source := some "test_result" }

/-- Log payload of the result-processing error entry (lines 346-358). -/
def procErrorLogPayload (run : TestRunResult) (msg : String) : LogCreate :=
  { project_id := run.project_id, service_id := run.service_id, test_id := some run.id,
    message := "Error processing test results: " ++ msg, severity := .error,
    source := some "test_service" }

/-- Log payload of the missing-report entry (lines 367-376). -/
def noReportLogPayload (run : TestRunResult) : LogCreate :=
  { project_id := run.project_id, service_id := run.service_id, test_id := some run.id,
    message := "No test report found", severity := .error, source := some "test_service" }

/-- Log payload of the run-completed entry (lines 388-406). -/
def completionLogPayload (run : TestRunResult) (sev : Severity) : LogCreate :=
  { project_id := run.project_id, service_id := run.service_id, test_id := some run.id,
    message := "Test run completed: " ++ statusValue run.status, severity := sev,
    source := some "test_service" }

/-- Log payload of the docker-unavailable entry in execute_test_run (124-134). -/
def dockerErrLogPayload (run : TestRunResult) : LogCreate :=
  { project_id := run.project_id, service_id := run.service_id, test_id := some run.id,
    message := "Docker is not available on the system. Cannot run tests in containers.",
    severity := .error, source := some "test_service" }

/-- Log payload of the captured-stdout entry (lines 255-267). -/
def stdoutLogPayload (run : TestRunResult) : LogCreate :=
  { project_id := run.project_id, service_id := run.service_id, test_id := some run.id,
    message := "Test execution stdout", severity := .info, source := some "test_execution" }

/-- Log payload of the captured-stderr entry (lines 270-282). -/
def stderrLogPayload (run : TestRunResult) (sev : Severity) : LogCreate :=
  { project_id := run.project_id, service_id := run.service_id, test_id := some run.id,
    message := "Test execution stderr", severity := sev, source := some "test_execution" }

/-- Log payload of the top-level execution-error entry (lines 166-178). -/
def execErrorLogPayload (run : TestRunResult) (run_id msg : String) : LogCreate :=
  { project_id := run.project_id, service_id := run.service_id, test_id := some run_id,
    message := "Test execution error: " ++ msg, severity := .error,
    source := some "test_service" }

/-- Log payload of the report-processing error entry of _process_json_report
(lines 686-695). -/
def jsonErrorLogPayload (run : TestRunResult) (msg : String) : LogCreate :=
  { project_id := run.project_id, service_id := run.service_id, test_id := some run.id,
    message := "Error processing test report: " ++ msg, severity := .error,
    source := some "test_service" }

/-- Log payload of one per-case entry of _create_test_result_logs (758-768). -/
def resultLogPayload (run : TestRunResult) (message : String) (sev : Severity) : LogCreate :=
  { project_id := run.project_id, service_id := run.service_id, test_id := some run.id,
    message := message, severity := sev, source := some "test_result" }

/-- Log payload of the docker-unavailable entry of run_service_tests (872-881). -/
def svcDockerErrLogPayload (project_id service_id run_id : String) : LogCreate :=
  { project_id := project_id, service_id := service_id, test_id := some run_id,
    message := "Docker is not available on the system", severity := .error,
    source := some "test_service" }

/-- TestService.create_test_run (lines 38-90): generate a run id, build the
pending run with start time now, create the run directory scaffold, save,
append the run-started log entry, save again. -/
def create_test_run (p : TestRunCreate) (w0 : World) : TestRunResult × World :=
  let run_id := w0.freshUuid.1
  let w1 := w0.freshUuid.2
  let start_time := w1.tick.1
  let w2 := w1.tick.2
  let tr : TestRunResult :=
    { id := run_id, project_id := p.project_id, service_id := p.service_id,
      test_path := p.test_path, test_id := p.test_id, status := .pending,
      start_time := start_time }
  let w3 := save_test_run_metadata tr w2
  let logId := (w3.createLog (startLogPayload p run_id)).1
  let w4 := (w3.createLog (startLogPayload p run_id)).2
  let tr2 := { tr with log_ids := tr.log_ids ++ [logId] }
  (tr2, save_test_run_metadata tr2 w4)

/-- Per-case log creation loop of _process_test_results (lines 316-339):
severity is INFO, or ERROR for outcome failed, or the Severity.WARNING lookup
for outcome skipped, which raises AttributeError; the loop stops at the first
raise, returning the partially extended run and sink together with the
exception for the enclosing except block. -/
def case_logs_loop (run : TestRunResult) (w : World) :
    List TestCase → TestRunResult × World × Option PyErr
  | [] => (run, w, none)
  | tc :: rest =>
    let outcome := tc.outcome.getD "unknown"
    let sevName := if outcome = "failed" then "ERROR"
      else if outcome = "skipped" then "WARNING" else "INFO"
    match severityAttr sevName with
    | none => (run, w, some (.attr sevName))
    | some sev =>
      let logId := (w.createLog (caseLogPayload run tc sev)).1
      let w1 := (w.createLog (caseLogPayload run tc sev)).2
      case_logs_loop { run with log_ids := run.log_ids ++ [logId] } w1 rest

/-- Counter assignment of result processing (lines 299-306 and 660-665): the
summary object (empty when the key is absent) is copied verbatim into the
run's counters, each field defaulting to 0. -/
def summaryApplied (run0 : TestRunResult) (r : Report) : TestRunResult :=
  let summary := r.summary.getD emptySummary
  { run0 with
    total_tests := summary.total.getD 0,
    passed_tests := summary.passed.getD 0,
    failed_tests := summary.failed.getD 0,
    error_tests := summary.error.getD 0,
    skipped_tests := summary.skipped.getD 0 }

/-- Status derivation of result processing (lines 308-312 and 675-679). -/
def statusDerived (run : TestRunResult) : TestRunResult :=
  { run with
    status := if 0 < run.failed_tests ∨ 0 < run.error_tests then
      TestStatus.failed else TestStatus.passed }

/-- Common tail of _process_test_results (lines 380-409): set end time and
duration, save, then append the completion log — whose severity expression
looks up Severity.WARNING whenever the status is not passed, raising
AttributeError after the save. -/
def finish_test_results (run1 : TestRunResult) (w1 : World) :
    TestRunResult × World × Option PyErr :=
  let t := w1.tick.1
  let w2 := w1.tick.2
  let run2 := { run1 with
                end_time := some t,
                duration_seconds := some ((t : Int) - (run1.start_time : Int)) }
  let w3 := save_test_run_metadata run2 w2
  let sevName := if run2.status = TestStatus.passed then "INFO" else "WARNING"
  match severityAttr sevName with
  | none => (run2, w3, some (.attr sevName))
  | some sev =>
    let logId := (w3.createLog (completionLogPayload run2 sev)).1
    let w4 := (w3.createLog (completionLogPayload run2 sev)).2
    let run3 := { run2 with log_ids := run2.log_ids ++ [logId] }
    (run3, save_test_run_metadata run3 w4, none)

/-- TestService._process_test_results (lines 286-411).  Branches on the report
artifact: parsed reports set the counters verbatim (summary missing means all
counts default 0), derive failed/passed, and create one log per case; a
json.load failure or an in-loop raise lands in the except block (error status
plus an error log); an absent file gets the no-report error path.  Then end
time and duration are set, the run saved, and the completion log appended —
whose severity expression looks up Severity.WARNING whenever the status is not
passed, raising AttributeError out of the method after the save. -/
def process_test_results (run0 : TestRunResult) (artifact : Artifact) (w0 : World) :
    TestRunResult × World × Option PyErr :=
  let step : TestRunResult × World :=
    match artifact with
    | .parsed r =>
      let runb := statusDerived (summaryApplied run0 r)
      let res := case_logs_loop runb w0 r.tests
      match res.2.2 with
      | none => (res.1, res.2.1)
      | some e =>
        let runc := { res.1 with status := .error }
        let logId := ((res.2.1).createLog (procErrorLogPayload runc (pyStr e))).1
        let w1 := ((res.2.1).createLog (procErrorLogPayload runc (pyStr e))).2
        ({ runc with log_ids := runc.log_ids ++ [logId] }, w1)
    | .malformed m =>
      let runa := { run0 with status := .error }
      let logId := (w0.createLog (procErrorLogPayload runa m)).1
      let w1 := (w0.createLog (procErrorLogPayload runa m)).2
      ({ runa with log_ids := runa.log_ids ++ [logId] }, w1)
    | .missing =>
      let runa := { run0 with status := .error }
      let logId := (w0.createLog (noReportLogPayload runa)).1
      let w1 := (w0.createLog (noReportLogPayload runa)).2
      ({ runa with log_ids := runa.log_ids ++ [logId] }, w1)
  finish_test_results step.1 step.2

/-- External-effect oracle for one execute_test_run invocation. -/
structure ExecEnv where
  dockerAvailable : Bool
  dockerAvailable2 : Bool := true
  execExc : Option String := none
  copyRaises : Bool := false
  stdoutContent : String := ""
  stderrContent : String := ""
  artifact : Artifact
deriving DecidableEq, Repr

/-- TestService._run_test_in_container (lines 185-284): re-checks docker
availability (raising RuntimeError if gone), runs the docker exec command
(any subprocess exception propagates), writes stdout/stderr files, then
attempts the docker cp of the report; only a raising copy subprocess takes
the except path that logs stdout and stderr (the stderr severity expression
looks up Severity.WARNING when stderr is non-empty, raising before the two
log ids would be appended); a copy that merely exits non-zero is not checked
here. -/
def run_test_in_container (run : TestRunResult) (env : ExecEnv) (w : World) :
    TestRunResult × World × Option PyErr :=
  if env.dockerAvailable2 = false then
    (run, w, some (.runtime "Docker is not available on the system"))
  else
    match env.execExc with
    | some m => (run, w, some (.exc m))
    | none =>
      if env.copyRaises then
        let stdoutLogId := (w.createLog (stdoutLogPayload run)).1
        let w1 := (w.createLog (stdoutLogPayload run)).2
        let sevName := if env.stderrContent ≠ "" then "WARNING" else "INFO"
        match severityAttr sevName with
        | none => (run, w1, some (.attr sevName))
        | some sev =>
          let stderrLogId := (w1.createLog (stderrLogPayload run sev)).1
          let w2 := (w1.createLog (stderrLogPayload run sev)).2
          ({ run with log_ids := run.log_ids ++ [stdoutLogId, stderrLogId] }, w2, none)
      else (run, w, none)

/-- Top-level except handler of execute_test_run (lines 157-183): force error
status, set end time and duration from the run's creation start time, append
an execution-error log entry and save. -/
def exec_error_handler (run_id : String) (run : TestRunResult) (e : PyErr) (w : World) :
    TestRunResult × World :=
  let t := w.tick.1
  let w1 := w.tick.2
  let runa := { run with
                status := .error, end_time := some t,
                duration_seconds := some ((t : Int) - (run.start_time : Int)) }
  let logId := (w1.createLog (execErrorLogPayload runa run_id (pyStr e))).1
  let w2 := (w1.createLog (execErrorLogPayload runa run_id (pyStr e))).2
  let runb := { runa with log_ids := runa.log_ids ++ [logId] }
  (runb, save_test_run_metadata runb w2)

/-- TestService.execute_test_run (lines 105-183): load the run (ValueError if
unknown), mark it running and save; if docker is unavailable short-circuit to
an error state (end time set, duration left unset); otherwise run the
container step and result processing, converting any raised exception into a
terminal error state through the except handler. -/
def execute_test_run (run_id : String) (env : ExecEnv) (w0 : World) :
    Except String TestRunResult × World :=
  match get_test_run w0.store run_id with
  | none => (.error ("Test run with ID " ++ run_id ++ " not found"), w0)
  | some tr0 =>
    let tr := { tr0 with status := .running }
    let w1 := save_test_run_metadata tr w0
    if env.dockerAvailable = false then
      let logId := (w1.createLog (dockerErrLogPayload tr)).1
      let w2 := (w1.createLog (dockerErrLogPayload tr)).2
      let t := w2.tick.1
      let w3 := w2.tick.2
      let tr2 := { tr with
                   status := .error, end_time := some t,
                   log_ids := tr.log_ids ++ [logId],
                   metadata := some (runMetaSet (tr.metadata.getD []) "error_message"
                     (.str "Docker is not available on the system. Cannot run tests in containers.")) }
      (.ok tr2, save_test_run_metadata tr2 w3)
    else
      let res := run_test_in_container tr env w1
      match res.2.2 with
      | some e =>
        let h := exec_error_handler run_id res.1 e res.2.1
        (.ok h.1, h.2)
      | none =>
        let pres := process_test_results res.1 env.artifact res.2.1
        match pres.2.2 with
        | some e =>
          let h := exec_error_handler run_id pres.1 e pres.2.1
          (.ok h.1, h.2)
        | none => (.ok pres.1, pres.2.1)

/-- Per-case log creation of _create_test_result_logs (lines 702-770): for
each report entry build a glyph-prefixed message from the last node-id
segment; outcome skipped again looks up the absent Severity.WARNING member,
raising AttributeError mid-loop (caught by _process_json_report's except). -/
def create_test_result_logs (run : TestRunResult) (w : World) :
    List TestCase → TestRunResult × World × Option PyErr
  | [] => (run, w, none)
  | tc :: rest =>
    let nodeid := tc.nodeid.getD ""
    let outcome := tc.outcome.getD "unknown"
    let sevName := if outcome = "failed" then "ERROR"
      else if outcome = "skipped" then "WARNING" else "INFO"
    match severityAttr sevName with
    | none => (run, w, some (.attr sevName))
    | some sev =>
      let parts := pySplitCC nodeid
      let test_name := if parts.length > 1 then parts.getLastD "" else nodeid
      let base := "Test " ++ test_name ++ " " ++ outcome
      let message := if outcome = "passed" then "✅ " ++ base
        else if outcome = "failed" then "❌ " ++ base
        else if outcome = "skipped" then "⚠️ " ++ base
        else base
      let logId := (w.createLog (resultLogPayload run message sev)).1
      let w1 := (w.createLog (resultLogPayload run message sev)).2
      create_test_result_logs { run with log_ids := run.log_ids ++ [logId] } w1 rest

/-- TestService._process_json_report (lines 645-700): inside its try, an
absent file raises FileNotFoundError and a malformed one fails json.load;
otherwise counters are set verbatim (summary defaults empty), the raw report
is kept in the run's metadata bag, per-case logs are created (which raises on
a skipped outcome), and only then is failed/passed derived.  The except turns
any raise into error status plus an error log, and the run is saved in every
case.  No completion log is created here. -/
def process_json_report (run0 : TestRunResult) (artifact : Artifact) (w0 : World) :
    TestRunResult × World :=
  let step : TestRunResult × World :=
    match artifact with
    | .missing =>
      let runa := { run0 with status := .error }
      let logId := (w0.createLog (jsonErrorLogPayload runa "JSON report file not found")).1
      let w1 := (w0.createLog (jsonErrorLogPayload runa "JSON report file not found")).2
      ({ runa with log_ids := runa.log_ids ++ [logId] }, w1)
    | .malformed m =>
      let runa := { run0 with status := .error }
      let logId := (w0.createLog (jsonErrorLogPayload runa m)).1
      let w1 := (w0.createLog (jsonErrorLogPayload runa m)).2
      ({ runa with log_ids := runa.log_ids ++ [logId] }, w1)
    | .parsed r =>
      let runa := summaryApplied run0 r
      let runb := { runa with
        metadata := some (runMetaSet (runa.metadata.getD []) "json_report" (.report r)) }
      let res := create_test_result_logs runb w0 r.tests
      match res.2.2 with
      | some e =>
        let runc := { res.1 with status := .error }
        let logId := ((res.2.1).createLog (jsonErrorLogPayload runc (pyStr e))).1
        let w1 := ((res.2.1).createLog (jsonErrorLogPayload runc (pyStr e))).2
        ({ runc with log_ids := runc.log_ids ++ [logId] }, w1)
      | none =>
        ({ res.1 with
           status := if 0 < res.1.failed_tests ∨ 0 < res.1.error_tests then
             TestStatus.failed else TestStatus.passed }, res.2.1)
  (step.1, save_test_run_metadata step.1 step.2)

/-- External-effect oracle for one run_service_tests invocation.  Only the
runtime-availability check is consulted: with docker available the source
next calls create_logger with a single argument (line 891) although
app/utils/logger.py line 167 declares create_logger(project_id, service_id),
so that call raises TypeError before the try block at line 894 and nothing
later in the method (lines 892-1041, including the docker exec, the report
copy, _process_json_report and the TestStatus.COMPLETED lookup at line 1007)
is reachable. -/
structure SvcEnv where
  dockerAvailable : Bool
deriving DecidableEq, Repr

/-- TestService.run_service_tests (lines 848-1041): create the run for test
path /tests; if docker is unavailable, write an explanatory error log (whose
id is never appended to the run), force error status and return the run with
end time and duration still unset; otherwise mark the run running, save, and
then raise TypeError from the one-argument create_logger call at line 891,
leaving the saved run in the running state. -/
def run_service_tests (project_id service_id _service_name _container_name : String)
    (env : SvcEnv) (w0 : World) : Except PyErr TestRunResult × World :=
  let c := create_test_run
    { project_id := project_id, service_id := service_id,
      test_path := "/tests", test_id := none } w0
  let run := c.1
  let w1 := c.2
  if env.dockerAvailable = false then
    let w2 := (w1.createLog (svcDockerErrLogPayload project_id service_id run.id)).2
    let run2 := { run with status := .error }
    (.ok run2, save_test_run_metadata run2 w2)
  else
    let run2 := { run with status := .running }
    let w2 := save_test_run_metadata run2 w1
    (.error (.typeErr "create_logger missing 1 required positional argument: service_id"),
      w2)

/-- External-effect oracle for one collect_service_tests invocation. -/
structure CollectEnv where
  dirExists : Bool
  collectReturncodeZero : Bool := true
  collectStdout : String := ""
  collectStderr : String := ""
  dbRaises : Option String := none
  dbTests : List DbTest := []
deriving DecidableEq, Repr

/-- Catalog row to synthesized test object (collect_service_tests lines
598-616): required fields are synthesized deterministically from the service
name and the row index. -/
def dbTestToObj (service_name : String) (i : Nat) (t : DbTest) : DbTestObj :=
  { id := t.oid.getD ("db-test-" ++ toString i),
    name := t.name.getD ("Test " ++ toString i),
    type := t.type.getD "Unit Test",
    status := t.status.getD "Unknown",
    path := "demo_tests/" ++ service_name ++ "/" ++ t.name.getD ("test_" ++ toString i),
    nodeid := service_name ++ "::test_" ++ toString i,
    module_name := service_name ++ "_tests",
    class_name := "TestClass",
    function_name := "test_" ++ toString i,
    line_number := 100 + i,
    parameters := [],
    is_parameterized := false,
    duration := t.duration.getD "0.1s",
    result := pyLower (t.status.getD "Unknown"),
    test_id := t.oid.getD ("db-test-" ++ toString i) }

/-- Indexed map used for the enumerate loops of collect_service_tests. -/
def mapIdxFrom {α β : Type} (f : Nat → α → β) : Nat → List α → List β
  | _, [] => []
  | i, a :: as => f i a :: mapIdxFrom f (i + 1) as

/-- Filesystem-discovery loop of collect_service_tests (lines 570-574): one
TestItem per collected node id, each drawing a fresh uuid suffix. -/
def collect_items : List String → Nat → World → List TestItem × World
  | [], _, w => ([], w)
  | n :: rest, i, w =>
    let u := w.freshUuid.1
    let w1 := w.freshUuid.2
    let item := create_test_item_from_nodeid n i u
    (item :: (collect_items rest (i + 1) w1).1, (collect_items rest (i + 1) w1).2)

/-- TestService.collect_service_tests (lines 515-637): compute the service
tests directory, record the command metadata; when the directory exists run
the collect-only pass (non-zero exit stores stderr under filesystem_error),
when it does not exist record the explanatory filesystem_error entry; then
query the poly_micro_tests catalog limited to 100 rows and append a
synthesized object per row (an exception there is recovered into a metadata
error entry); if any source yielded tests, persist the merged inventory to
the per-(project, service-name) cache.  The call always returns a response. -/
def collect_service_tests (project_id service_id service_name project_path
    tests_dir_path : String) (env : CollectEnv) (w0 : World) :
    ServiceTestsResponse × World :=
  let service_tests_path := project_path ++ "/" ++ tests_dir_path ++ "/" ++ service_name
  let dt := w0.tick.1
  let w1 := w0.tick.2
  let resp : ServiceTestsResponse :=
    { service_id := service_id, service_name := service_name, project_id := project_id,
      discovery_time := dt, tests := [],
      metadata := [("tests_path", service_tests_path),
        ("collection_command", "pytest " ++ service_tests_path ++ " --collect-only -q")] }
  let fsStep : ServiceTestsResponse × World × Bool :=
    if env.dirExists then
      if env.collectReturncodeZero then
        let nodeids := parse_pytest_collect_output env.collectStdout
        let items := (collect_items nodeids 0 w1).1
        let w2 := (collect_items nodeids 0 w1).2
        ({ resp with tests := items.map CollectedTest.fsItem }, w2,
          decide (0 < items.length))
      else
        let md := metaSet resp.metadata "filesystem_error" env.collectStderr
        ({ resp with metadata := md }, w1, false)
    else
      let msg := "Tests directory does not exist: " ++ service_tests_path
      let md := metaSet resp.metadata "filesystem_error" msg
      ({ resp with metadata := md }, w1, false)
  let resp1 := fsStep.1
  let w2 := fsStep.2.1
  let fs_found := fsStep.2.2
  match env.dbRaises with
  | some m => ({ resp1 with metadata := metaSet resp1.metadata "error" m }, w2)
  | none =>
    let db_tests := env.dbTests.take 100
    let resp2 := { resp1 with
                   tests := resp1.tests ++ mapIdxFrom
                     (fun i t => CollectedTest.dbItem (dbTestToObj service_name i t))
                     0 db_tests }
    let tests_found := fs_found || decide (0 < db_tests.length)
    (resp2, if tests_found then
      { w2 with svcTests := assocSet w2.svcTests (project_id, service_name) resp2 }
    else w2)

/-- Newest-first comparison used by the lookup queries: a run sorts before
another when its start time is at least as late. -/
def recentFirst (a b : TestRunResult) : Prop := b.start_time ≤ a.start_time

instance : DecidableRel recentFirst :=
  fun a b => Nat.decLe b.start_time a.start_time

instance : IsTotal TestRunResult recentFirst :=
  ⟨fun a b => by unfold recentFirst; exact Nat.le_total b.start_time a.start_time⟩

instance : IsTrans TestRunResult recentFirst :=
  ⟨fun _ _ _ h1 h2 => by unfold recentFirst at *; exact Nat.le_trans h2 h1⟩

/-- TestService.get_test_runs_by_project (lines 431-451): parse every record
under the project directory and sort newest-first (Python's stable sort with
key start_time and reverse=True, modelled by a stable insertion sort). -/
def get_test_runs_by_project (s : Store) (project_id : String) : List TestRunResult :=
  List.insertionSort recentFirst
    ((s.filter (fun p => decide (p.1.1 = project_id))).map (fun p => deserialize p.2))

/-- TestService.get_test_runs_by_service (lines 453-479): parse every record
of every project, keep those whose service id matches, sort newest-first. -/
def get_test_runs_by_service (s : Store) (service_id : String) : List TestRunResult :=
  List.insertionSort recentFirst
    ((s.map (fun p => deserialize p.2)).filter (fun tr => decide (tr.service_id = service_id)))

/-- Fresh world used by the concrete evaluations below. -/
def w0 : World := {}

/-- Concrete creation request used by the concrete evaluations below. -/
def req1 : TestRunCreate :=
  { project_id := "P1", service_id := "S1", test_path := "/tests", test_id := none }

/-- Report whose parsed JSON object has no summary key at all. -/
def noSummaryReport : Report := { summary := none, tests := [] }

/-- Summary with the given failed count and zero error count. -/
def mkSummary (tot pass fail err skip : Int) : Summary :=
  { total := some tot, passed := some pass, failed := some fail,
    error := some err, skipped := some skip }

/-- Report with two failures and no error count. -/
def failingReport : Report :=
  { summary := some (mkSummary 2 0 2 0 0),
    tests := [{ nodeid := some "t.py::a", outcome := some "failed" },
              { nodeid := some "t.py::b", outcome := some "failed" }] }

/-- Well-formed report with two cases, the first of them skipped. -/
def skipReport : Report :=
  { summary := some (mkSummary 2 1 0 0 1),
    tests := [{ nodeid := some "t.py::a", outcome := some "skipped" },
              { nodeid := some "t.py::b", outcome := some "passed" }] }

/-- Fully passing one-case report. -/
def passingReport : Report :=
  { summary := some (mkSummary 1 1 0 0 0),
    tests := [{ nodeid := some "t.py::a", outcome := some "passed", duration := some 0 }] }

/-- Decidable equality on Except results, used to evaluate the embedding at
concrete inputs. -/
def exceptDecEq {e a : Type} [DecidableEq e] [DecidableEq a] :
    (x y : Except e a) → Decidable (x = y)
  | .error u, .error v =>
    if h : u = v then .isTrue (by rw [h]) else .isFalse (fun he => by cases he; exact h rfl)
  | .error _, .ok _ => .isFalse (fun he => by cases he)
  | .ok _, .error _ => .isFalse (fun he => by cases he)
  | .ok u, .ok v =>
    if h : u = v then .isTrue (by rw [h]) else .isFalse (fun he => by cases he; exact h rfl)

instance {e a : Type} [DecidableEq e] [DecidableEq a] : DecidableEq (Except e a) :=
  exceptDecEq

theorem find?_overwrite_self {α β : Type} [DecidableEq α] (l : List (α × β)) (k : α)
    (v : β) (hin : l.any (fun p => decide (p.1 = k)) = true) :
    (l.map (fun p => if p.1 = k then (k, v) else p)).find? (fun p => decide (p.1 = k)) =
      some (k, v) := by
  induction l with
  | nil => simp at hin
  | cons a l ih =>
    rw [List.map_cons]
    by_cases hak : a.1 = k
    · rw [if_pos hak]
      exact List.find?_cons_of_pos _ (by simp)
    · rw [if_neg hak, List.find?_cons_of_neg _ (by simpa using hak)]
      apply ih
      simpa [List.any_cons, hak] using hin

theorem find?_append_single_self {α β : Type} [DecidableEq α] (l : List (α × β)) (k : α)
    (v : β) (hout : l.any (fun p => decide (p.1 = k)) = false) :
    (l ++ [(k, v)]).find? (fun p => decide (p.1 = k)) = some (k, v) := by
  induction l with
  | nil => exact List.find?_cons_of_pos _ (by simp)
  | cons a l ih =>
    rw [List.any_cons, Bool.or_eq_false_iff] at hout
    rw [List.cons_append, List.find?_cons_of_neg _ (by simpa using hout.1)]
    exact ih hout.2

theorem assocSet_find_self {α β : Type} [DecidableEq α] (l : List (α × β)) (k : α)
    (v : β) :
    (assocSet l k v).find? (fun p => decide (p.1 = k)) = some (k, v) := by
  unfold assocSet
  by_cases hany : l.any (fun p => decide (p.1 = k)) = true
  · rw [if_pos hany]; exact find?_overwrite_self l k v hany
  · rw [if_neg hany]
    exact find?_append_single_self l k v (Bool.eq_false_iff.2 hany)

theorem find?_overwrite_other {α β : Type} [DecidableEq α] (l : List (α × β))
    (k k2 : α) (v : β) (h : ¬(k = k2)) :
    (l.map (fun p => if p.1 = k2 then (k2, v) else p)).find? (fun p => decide (p.1 = k)) =
      l.find? (fun p => decide (p.1 = k)) := by
  induction l with
  | nil => rfl
  | cons a l ih =>
    rw [List.map_cons]
    by_cases hak2 : a.1 = k2
    · have hak : ¬(a.1 = k) := by rw [hak2]; exact fun e => h e.symm
      rw [if_pos hak2]
      rw [List.find?_cons_of_neg _ (by simpa using fun e => h e.symm)]
      rw [List.find?_cons_of_neg _ (by simpa using hak)]
      exact ih
    · rw [if_neg hak2]
      by_cases hak : a.1 = k
      · rw [List.find?_cons_of_pos _ (by simpa using hak),
          List.find?_cons_of_pos _ (by simpa using hak)]
      · rw [List.find?_cons_of_neg _ (by simpa using hak),
          List.find?_cons_of_neg _ (by simpa using hak)]
        exact ih

theorem assocSet_find_other {α β : Type} [DecidableEq α] (l : List (α × β))
    (k k2 : α) (v : β) (h : ¬(k = k2)) :
    (assocSet l k2 v).find? (fun p => decide (p.1 = k)) =
      l.find? (fun p => decide (p.1 = k)) := by
  unfold assocSet
  by_cases hany : l.any (fun p => decide (p.1 = k2)) = true
  · rw [if_pos hany]; exact find?_overwrite_other l k k2 v h
  · rw [if_neg hany]
    rw [List.find?_append]
    cases hf : l.find? (fun p => decide (p.1 = k)) with
    | some p => rfl
    | none =>
      have hk2 : decide (k2 = k) = false := by
        simp only [decide_eq_false_iff_not]
        exact fun e => h e.symm
      simp [List.find?, hk2]

theorem assocSet_idem {α β : Type} [DecidableEq α] (l : List (α × β)) (k : α) (v : β) :
    assocSet (assocSet l k v) k v = assocSet l k v := by
  have hpoint : ∀ p : α × β,
      (if (if p.1 = k then (k, v) else p).1 = k then (k, v)
       else if p.1 = k then (k, v) else p) = if p.1 = k then (k, v) else p := by
    intro p
    by_cases hpk : p.1 = k <;> simp [hpk]
  unfold assocSet
  by_cases hany : l.any (fun p => decide (p.1 = k)) = true
  · rw [if_pos hany]
    have hany2 : (l.map (fun p => if p.1 = k then (k, v) else p)).any
        (fun p => decide (p.1 = k)) = true := by
      rw [List.any_eq_true] at hany ⊢
      obtain ⟨p, hp, hpk⟩ := hany
      simp only [decide_eq_true_eq] at hpk
      exact ⟨(k, v), List.mem_map.2 ⟨p, hp, by simp [hpk]⟩, by simp⟩
    rw [if_pos hany2, List.map_map]
    exact List.map_congr_left fun p _ => hpoint p
  · rw [if_neg hany]
    have hany2 : (l ++ [(k, v)]).any (fun p => decide (p.1 = k)) = true := by simp
    rw [if_pos hany2, List.map_append]
    have hid : l.map (fun p => if p.1 = k then (k, v) else p) = l := by
      conv_rhs => rw [show l = l.map id from (List.map_id l).symm]
      refine List.map_congr_left fun p hp => ?_
      rw [Bool.not_eq_true, List.any_eq_false] at hany
      have := hany p hp
      simp only [decide_eq_true_eq] at this
      simp [this]
    simp [hid]

theorem storeGet_storeSet (s : Store) (k : String × String) (v : StoredRecord) :
    storeGet (storeSet s k v) k = some v := by
  unfold storeGet storeSet
  rw [assocSet_find_self]
  rfl

theorem metaGet_metaSet_self (l : List (String × String)) (k v : String) :
    metaGet (metaSet l k v) k = some v := by
  unfold metaGet metaSet
  rw [assocSet_find_self]
  rfl

theorem metaGet_metaSet_other (l : List (String × String)) (k k2 v : String)
    (h : ¬(k = k2)) : metaGet (metaSet l k2 v) k = metaGet l k := by
  unfold metaGet metaSet
  rw [assocSet_find_other _ _ _ _ h]

theorem lex_append_of_lex {l1 l2 : List Char} (h : List.Lex (· < ·) l1 l2)
    (hlen : l1.length = l2.length) (x y : List Char) :
    List.Lex (· < ·) (l1 ++ x) (l2 ++ y) := by
  induction h with
  | nil => simp at hlen
  | @rel a l1 b l2 hr => exact .rel hr
  | @cons a l1 l2 _ ih => exact .cons (ih (by simpa using hlen))

theorem lex_append_last {p : List Char} {c d : Char} (h : c < d) :
    List.Lex (· < ·) (p ++ [c]) (p ++ [d]) := by
  induction p with
  | nil => exact .rel h
  | cons a p ih => exact .cons ih

theorem isoChars_length (w n : Nat) : (isoChars w n).length = w := by
  induction w generalizing n with
  | zero => rfl
  | succ w ih => simp [isoChars, ih]

theorem isoDigit_lt {a b : Nat} (h1 : a < b) (h2 : b < 10) :
    isoDigit a < isoDigit b := by
  interval_cases b <;> interval_cases a <;> decide

theorem isoChars_lex (w : Nat) : ∀ {a b : Nat}, a < b → b < 10 ^ w →
    List.Lex (· < ·) (isoChars w a) (isoChars w b) := by
  induction w with
  | zero =>
    intro a b h1 h2
    simp only [pow_zero, Nat.lt_one_iff] at h2
    omega
  | succ w ih =>
    intro a b h1 h2
    have hble : a / 10 ≤ b / 10 := Nat.div_le_div_right (Nat.le_of_lt h1)
    rcases Nat.lt_or_ge (a / 10) (b / 10) with hlt | hge
    · have hb : b / 10 < 10 ^ w := by
        apply Nat.div_lt_of_lt_mul
        rw [pow_succ] at h2
        omega
      exact lex_append_of_lex (ih hlt hb)
        ((isoChars_length w (a / 10)).trans (isoChars_length w (b / 10)).symm) _ _
    · have heq : a / 10 = b / 10 := Nat.le_antisymm hble hge
      have hmod : a % 10 < b % 10 := by
        have ha := Nat.div_add_mod a 10
        have hb := Nat.div_add_mod b 10
        omega
      show List.Lex (· < ·) (isoChars w (a / 10) ++ [isoDigit (a % 10)])
        (isoChars w (b / 10) ++ [isoDigit (b % 10)])
      rw [heq]
      exact lex_append_last (isoDigit_lt hmod (Nat.mod_lt b (by norm_num)))

theorem iso_lex {a b : Nat} (h1 : a < b) (h2 : b < 10 ^ 20) :
    List.Lex (· < ·) (iso a).data (iso b).data :=
  isoChars_lex 20 h1 h2

theorem fsItem_not_mem_mapIdx (service_name : String) (l : List DbTest) (i : Nat)
    (t : TestItem) :
    CollectedTest.fsItem t ∉
      mapIdxFrom (fun i t => CollectedTest.dbItem (dbTestToObj service_name i t)) i l := by
  induction l generalizing i with
  | nil => simp [mapIdxFrom]
  | cons a l ih => simp [mapIdxFrom, ih]

/-- Claim C5: for every set of stored runs and every insertion order,
get_test_runs_by_project returns exactly the runs stored under that project and
get_test_runs_by_service exactly the stored runs with that service id, both
sorted non-increasing in start time (newest first). -/
theorem c5_lookup_queries_sorted (s : Store) (project_id service_id : String) :
    List.Perm (get_test_runs_by_project s project_id)
      ((s.filter (fun p => decide (p.1.1 = project_id))).map (fun p => deserialize p.2)) ∧
    List.Pairwise recentFirst (get_test_runs_by_project s project_id) ∧
    (∀ tr, tr ∈ get_test_runs_by_project s project_id ↔
      ∃ p, p ∈ s ∧ p.1.1 = project_id ∧ deserialize p.2 = tr) ∧
    List.Perm (get_test_runs_by_service s service_id)
      ((s.map (fun p => deserialize p.2)).filter
        (fun tr => decide (tr.service_id = service_id))) ∧
    List.Pairwise recentFirst (get_test_runs_by_service s service_id) ∧
    (∀ tr, tr ∈ get_test_runs_by_service s service_id ↔
      tr.service_id = service_id ∧ ∃ p, p ∈ s ∧ deserialize p.2 = tr) := by
  refine ⟨List.perm_insertionSort _ _, ?_, ?_, List.perm_insertionSort _ _, ?_, ?_⟩
  · exact List.sorted_insertionSort recentFirst _
  · intro tr
    unfold get_test_runs_by_project
    rw [(List.perm_insertionSort _ _).mem_iff]
    simp only [List.mem_map, List.mem_filter, decide_eq_true_eq]
    constructor
    · rintro ⟨p, ⟨hp, hpid⟩, rfl⟩
      exact ⟨p, hp, hpid, rfl⟩
    · rintro ⟨p, hp, hpid, rfl⟩
      exact ⟨p, ⟨hp, hpid⟩, rfl⟩
  · exact List.sorted_insertionSort recentFirst _
  · intro tr
    unfold get_test_runs_by_service
    rw [(List.perm_insertionSort _ _).mem_iff]
    simp only [List.mem_filter, List.mem_map, decide_eq_true_eq]
    constructor
    · rintro ⟨⟨p, hp, rfl⟩, hsid⟩
      exact ⟨hsid, p, hp, rfl⟩
    · rintro ⟨hsid, p, hp, rfl⟩
      exact ⟨⟨p, hp, rfl⟩, hsid⟩

/-- Claim C6: parsing a collected node identifier of shape path[::segment]*:
zero extra segments gives kind unknown with the whole identifier as name; one
segment gives kind class exactly when the segment starts with "Test" and not
with "test_", else kind function, with the segment as name; two extra segments
give kind method with the first segment as enclosing class name and the second
as name. -/
theorem c6_nodeid_parsing (nodeid : String) (index : Nat) (uuidHex : String) :
    (∀ p, pySplitCC nodeid = [p] →
      (create_test_item_from_nodeid nodeid index uuidHex).type = "unknown" ∧
      (create_test_item_from_nodeid nodeid index uuidHex).name = nodeid) ∧
    (∀ p s, pySplitCC nodeid = [p, s] →
      (create_test_item_from_nodeid nodeid index uuidHex).name = s ∧
      ((pyStartsWith s "Test" && !pyStartsWith s "test_") = true →
        (create_test_item_from_nodeid nodeid index uuidHex).type = "class") ∧
      ((pyStartsWith s "Test" && !pyStartsWith s "test_") = false →
        (create_test_item_from_nodeid nodeid index uuidHex).type = "function")) ∧
    (∀ p c m, pySplitCC nodeid = [p, c, m] →
      (create_test_item_from_nodeid nodeid index uuidHex).type = "method" ∧
      (create_test_item_from_nodeid nodeid index uuidHex).class_name = some c ∧
      (create_test_item_from_nodeid nodeid index uuidHex).name = m) := by
  unfold create_test_item_from_nodeid
  refine ⟨?_, ?_, ?_⟩
  · intro p h
    rw [h]
    simp
  · intro p s h
    rw [h]
    cases hb : (pyStartsWith s "Test" && !pyStartsWith s "test_") <;> simp [hb]
  · intro p c m h
    rw [h]
    simp

/-- Witness for C6 at the spec examples. -/
theorem c6_nodeid_parsing_witness :
    (create_test_item_from_nodeid "tests/test_auth.py::TestLogin::test_success" 7
      "deadbeef").type = "method" ∧
    (create_test_item_from_nodeid "tests/test_auth.py::TestLogin::test_success" 7
      "deadbeef").class_name = some "TestLogin" ∧
    (create_test_item_from_nodeid "tests/test_auth.py::TestLogin::test_success" 7
      "deadbeef").name = "test_success" :=
  (c6_nodeid_parsing "tests/test_auth.py::TestLogin::test_success" 7 "deadbeef").2.2
    "tests/test_auth.py" "TestLogin" "test_success" (by decide)

/-- Claim C9: saving the same TestRun twice in a row is idempotent (the second
save fully overwrites with the identical whole-run snapshot, so reads agree),
the stored record is the full serialized snapshot, and the timestamp
serialization is canonical and sortable (order-preserving). -/
theorem c9_idempotent_save (w : World) (tr : TestRunResult) (a b : Nat)
    (h1 : a < b) (h2 : b < 10 ^ 20) :
    (save_test_run_metadata tr (save_test_run_metadata tr w)).store =
      (save_test_run_metadata tr w).store ∧
    get_test_run (save_test_run_metadata tr (save_test_run_metadata tr w)).store tr.id =
      get_test_run (save_test_run_metadata tr w).store tr.id ∧
    storeGet (save_test_run_metadata tr w).store (tr.project_id, tr.id) =
      some (serialize tr) ∧
    (serialize tr).start_time_s = iso tr.start_time ∧
    List.Lex (· < ·) (iso a).data (iso b).data := by
  have hs : (save_test_run_metadata tr (save_test_run_metadata tr w)).store =
      (save_test_run_metadata tr w).store := by
    unfold save_test_run_metadata storeSet
    exact assocSet_idem w.store (tr.project_id, tr.id) (serialize tr)
  refine ⟨hs, by rw [hs], ?_, rfl, iso_lex h1 h2⟩
  unfold save_test_run_metadata
  exact storeGet_storeSet w.store (tr.project_id, tr.id) (serialize tr)

/-- Witness for C9 at a concrete world, run and pair of instants. -/
theorem c9_idempotent_save_witness :
    (save_test_run_metadata (create_test_run req1 w0).1
        (save_test_run_metadata (create_test_run req1 w0).1 w0)).store =
      (save_test_run_metadata (create_test_run req1 w0).1 w0).store ∧
    get_test_run (save_test_run_metadata (create_test_run req1 w0).1
        (save_test_run_metadata (create_test_run req1 w0).1 w0)).store
        (create_test_run req1 w0).1.id =
      get_test_run (save_test_run_metadata (create_test_run req1 w0).1 w0).store
        (create_test_run req1 w0).1.id ∧
    storeGet (save_test_run_metadata (create_test_run req1 w0).1 w0).store
        ((create_test_run req1 w0).1.project_id, (create_test_run req1 w0).1.id) =
      some (serialize (create_test_run req1 w0).1) ∧
    (serialize (create_test_run req1 w0).1).start_time_s =
      iso (create_test_run req1 w0).1.start_time ∧
    List.Lex (· < ·) (iso 3).data (iso 7).data :=
  c9_idempotent_save w0 (create_test_run req1 w0).1 3 7 (by decide) (by decide)

/-- Claim C10: when the container runtime is unavailable, run_service_tests
returns the run with status error, end time and duration still unset, and
log_ids unchanged from creation (only the run-started log id); the explanatory
error log entry reaches the log sink but its id is never appended. -/
theorem c10_runtime_unavailable (project_id service_id service_name
    container_name : String) (env : SvcEnv) (w : World)
    (h : env.dockerAvailable = false) :
    ∃ run w2,
      run_service_tests project_id service_id service_name container_name env w =
        (.ok run, w2) ∧
      run.status = .error ∧ run.end_time = none ∧ run.duration_seconds = none ∧
      run.log_ids = [w.sink.nextId] ∧
      (w.sink.nextId + 1) ∉ run.log_ids ∧
      (∃ lc, (w.sink.nextId + 1, lc) ∈ w2.sink.entries ∧
        lc.message = "Docker is not available on the system" ∧
        lc.severity = .error) := by
  have henv : env = { dockerAvailable := false } := by
    cases env
    simp_all
  subst henv
  refine ⟨_, _, rfl, rfl, rfl, rfl, ?_, ?_, ?_⟩
  · simp [create_test_run, save_test_run_metadata, World.createLog, World.freshUuid,
      World.tick, startLogPayload]
  · simp [create_test_run, save_test_run_metadata, World.createLog, World.freshUuid,
      World.tick, startLogPayload]
  refine ⟨svcDockerErrLogPayload project_id service_id
    ("uuid-" ++ toString w.nextUuid), ?_, rfl, rfl⟩
  simp [create_test_run, save_test_run_metadata, World.createLog, World.freshUuid,
    World.tick, startLogPayload]

/-- Witness for C10 at concrete arguments. -/
theorem c10_runtime_unavailable_witness :
    ∃ run w2,
      run_service_tests "P1" "S1" "svc" "cont" { dockerAvailable := false } w0 =
        (.ok run, w2) ∧
      run.status = .error ∧ run.end_time = none ∧ run.duration_seconds = none ∧
      run.log_ids = [w0.sink.nextId] ∧
      (w0.sink.nextId + 1) ∉ run.log_ids ∧
      (∃ lc, (w0.sink.nextId + 1, lc) ∈ w2.sink.entries ∧
        lc.message = "Docker is not available on the system" ∧
        lc.severity = .error) :=
  c10_runtime_unavailable "P1" "S1" "svc" "cont" { dockerAvailable := false } w0 rfl


/-- Counterexample for claim C1: an artifact that parses as JSON but has no
summary object is processed to terminal state passed (counters all defaulted
to 0, so neither failed nor error is positive), not error as the claim
states. -/
theorem c1_missing_summary_not_error :
    ((execute_test_run (create_test_run req1 w0).1.id
        { dockerAvailable := true, artifact := .parsed noSummaryReport }
        (create_test_run req1 w0).2).1.toOption.map (fun r => r.status)) =
      some TestStatus.passed ∧
    some TestStatus.passed ≠ some TestStatus.error := by
  constructor
  · decide
  · decide

/-- Claim C3 evaluated at the failing input: with the container runtime
reachable, run_service_tests does not return a TestRun at all — the
one-argument create_logger call raises TypeError, which propagates to the
caller, and the stored run is left in the running state. -/
theorem c3_run_service_tests_raises :
    (run_service_tests "P1" "S1" "svc" "cont" { dockerAvailable := true } w0).1 =
      .error (.typeErr "create_logger missing 1 required positional argument: service_id") ∧
    ((run_service_tests "P1" "S1" "svc" "cont" { dockerAvailable := true } w0).2.store.map
      (fun p => p.2.data.status)) = [TestStatus.running] := by
  constructor
  · decide
  · decide

/-- Claim C4 evaluated at the failing input: a well-formed artifact with two
per-case entries whose first case is skipped yields a run whose log_ids has
length 3, below the claimed lower bound N + 2 = 4, because the severity
lookup for the skipped outcome (Severity.WARNING, absent from the enum)
raises before that case's log is created. -/
theorem c4_skipped_case_breaks_log_ordering :
    skipReport.tests.length = 2 ∧
    ((execute_test_run (create_test_run req1 w0).1.id
        { dockerAvailable := true, artifact := .parsed skipReport }
        (create_test_run req1 w0).2).1.toOption.map (fun r => r.log_ids.length)) =
      some 3 ∧
    ¬(3 ≥ skipReport.tests.length + 2) := by
  refine ⟨rfl, ?_, by decide⟩
  decide

/-- Counterexample for claim C8: with the runtime unavailable,
execute_test_run returns a run in the terminal state error whose end time is
set but whose duration_seconds is still none, so duration does not equal
end minus start there. -/
theorem c8_runtime_unavailable_no_duration :
    ((execute_test_run (create_test_run req1 w0).1.id
        { dockerAvailable := false, artifact := .missing }
        (create_test_run req1 w0).2).1.toOption.map
      (fun r => (r.status, r.end_time.isSome, r.duration_seconds))) =
      some (TestStatus.error, true, none) := by
  decide

theorem case_logs_loop_spec (tcs : List TestCase) : ∀ (run : TestRunResult) (w : World),
    (case_logs_loop run w tcs).1.id = run.id ∧
    (case_logs_loop run w tcs).1.project_id = run.project_id ∧
    (case_logs_loop run w tcs).1.service_id = run.service_id ∧
    (case_logs_loop run w tcs).1.status = run.status ∧
    (case_logs_loop run w tcs).1.start_time = run.start_time ∧
    (case_logs_loop run w tcs).1.total_tests = run.total_tests ∧
    (case_logs_loop run w tcs).1.passed_tests = run.passed_tests ∧
    (case_logs_loop run w tcs).1.failed_tests = run.failed_tests ∧
    (case_logs_loop run w tcs).1.error_tests = run.error_tests ∧
    (case_logs_loop run w tcs).1.skipped_tests = run.skipped_tests ∧
    (∃ ids, (case_logs_loop run w tcs).1.log_ids = run.log_ids ++ ids) ∧
    ((case_logs_loop run w tcs).2.2 = none ↔
      ∀ tc ∈ tcs, ¬(tc.outcome.getD "unknown" = "skipped")) := by
  induction tcs with
  | nil =>
    intro run w
    simp [case_logs_loop]
  | cons tc rest ih =>
    intro run w
    by_cases hs : tc.outcome.getD "unknown" = "skipped"
    · have hnf : ¬(tc.outcome.getD "unknown" = "failed") := by rw [hs]; decide
      simp only [case_logs_loop, hs, hnf]
      norm_num [severityAttr]
      simp [hs]
    · by_cases hf : tc.outcome.getD "unknown" = "failed"
      · simp only [case_logs_loop, hf]
        norm_num [severityAttr]
        obtain ⟨h1, h2, h3, h4, h5, h6, h7, h8, h9, h10, ⟨ids, hlog⟩, hiff⟩ := ih { run with log_ids := run.log_ids ++ [(w.createLog (caseLogPayload run tc Severity.error)).1] } (w.createLog (caseLogPayload run tc Severity.error)).2
        refine ⟨h1, h2, h3, h4, h5, h6, h7, h8, h9, h10, ⟨(w.createLog (caseLogPayload run tc Severity.error)).1 :: ids, ?_⟩, ?_⟩
        · rw [hlog]
          simp
        · rw [hiff]
          simp [List.forall_mem_cons, hs]
      · simp only [case_logs_loop, hf, hs]
        norm_num [severityAttr]
        obtain ⟨h1, h2, h3, h4, h5, h6, h7, h8, h9, h10, ⟨ids, hlog⟩, hiff⟩ := ih { run with log_ids := run.log_ids ++ [(w.createLog (caseLogPayload run tc Severity.info)).1] } (w.createLog (caseLogPayload run tc Severity.info)).2
        refine ⟨h1, h2, h3, h4, h5, h6, h7, h8, h9, h10, ⟨(w.createLog (caseLogPayload run tc Severity.info)).1 :: ids, ?_⟩, ?_⟩
        · rw [hlog]
          simp
        · rw [hiff]
          simp [List.forall_mem_cons, hs]

theorem finish_test_results_spec (run1 : TestRunResult) (w1 : World) :
    (finish_test_results run1 w1).1.id = run1.id ∧
    (finish_test_results run1 w1).1.project_id = run1.project_id ∧
    (finish_test_results run1 w1).1.service_id = run1.service_id ∧
    (finish_test_results run1 w1).1.status = run1.status ∧
    (finish_test_results run1 w1).1.start_time = run1.start_time ∧
    (finish_test_results run1 w1).1.total_tests = run1.total_tests ∧
    (finish_test_results run1 w1).1.passed_tests = run1.passed_tests ∧
    (finish_test_results run1 w1).1.failed_tests = run1.failed_tests ∧
    (finish_test_results run1 w1).1.error_tests = run1.error_tests ∧
    (finish_test_results run1 w1).1.skipped_tests = run1.skipped_tests ∧
    (finish_test_results run1 w1).1.end_time = some w1.clock ∧
    (finish_test_results run1 w1).1.duration_seconds =
      some ((w1.clock : Int) - (run1.start_time : Int)) ∧
    (∃ ids, (finish_test_results run1 w1).1.log_ids = run1.log_ids ++ ids) ∧
    storeGet (finish_test_results run1 w1).2.1.store (run1.project_id, run1.id) =
      some (serialize (finish_test_results run1 w1).1) ∧
    ((finish_test_results run1 w1).2.2 = none ↔ run1.status = TestStatus.passed) := by
  by_cases hp : run1.status = TestStatus.passed
  · simp only [finish_test_results, hp]
    norm_num [severityAttr]
    refine ⟨rfl, ?_⟩
    unfold save_test_run_metadata
    exact storeGet_storeSet _ _ _
  · simp only [finish_test_results]
    rw [if_neg hp]
    have hW : severityAttr "WARNING" = none := rfl
    rw [hW]
    norm_num [hp]
    refine ⟨rfl, ?_, by simp⟩
    unfold save_test_run_metadata
    exact storeGet_storeSet _ _ _

theorem process_test_results_spec (run : TestRunResult) (artifact : Artifact) (w : World) :
    (process_test_results run artifact w).1.id = run.id ∧
    (process_test_results run artifact w).1.project_id = run.project_id ∧
    (process_test_results run artifact w).1.service_id = run.service_id ∧
    (process_test_results run artifact w).1.start_time = run.start_time ∧
    ((process_test_results run artifact w).1.status = TestStatus.passed ∨
      (process_test_results run artifact w).1.status = TestStatus.failed ∨
      (process_test_results run artifact w).1.status = TestStatus.error) ∧
    (∃ t, (process_test_results run artifact w).1.end_time = some t ∧
      (process_test_results run artifact w).1.duration_seconds =
        some ((t : Int) - (run.start_time : Int))) ∧
    storeGet (process_test_results run artifact w).2.1.store (run.project_id, run.id) =
      some (serialize (process_test_results run artifact w).1) ∧
    (artifact = Artifact.missing →
      (process_test_results run artifact w).1.status = TestStatus.error) ∧
    (∀ m, artifact = Artifact.malformed m →
      (process_test_results run artifact w).1.status = TestStatus.error) ∧
    ((process_test_results run artifact w).2.2 = none ↔
      (process_test_results run artifact w).1.status = TestStatus.passed) := by
  cases artifact with
  | missing =>
    obtain ⟨F1, F2, F3, F4, F5, F6, F7, F8, F9, F10, F11, F12, ⟨ids, F13⟩, F14, F15⟩ :=
      finish_test_results_spec
        { run with status := TestStatus.error, log_ids := run.log_ids ++ [(w.createLog (noReportLogPayload { run with status := TestStatus.error })).1] }
        (w.createLog (noReportLogPayload { run with status := TestStatus.error })).2
    exact ⟨F1, F2, F3, F5, Or.inr (Or.inr F4), ⟨_, F11, F12⟩,
      F14, fun _ => F4, fun m hm => by simp at hm, F15⟩
  | malformed m =>
    obtain ⟨F1, F2, F3, F4, F5, F6, F7, F8, F9, F10, F11, F12, ⟨ids, F13⟩, F14, F15⟩ :=
      finish_test_results_spec
        { run with status := TestStatus.error, log_ids := run.log_ids ++ [(w.createLog (procErrorLogPayload { run with status := TestStatus.error } m)).1] }
        (w.createLog (procErrorLogPayload { run with status := TestStatus.error } m)).2
    exact ⟨F1, F2, F3, F5, Or.inr (Or.inr F4), ⟨_, F11, F12⟩,
      F14, fun hm => by simp at hm, fun m2 hm => F4, F15⟩
  | parsed r =>
    simp only [process_test_results]
    obtain ⟨L1, L2, L3, L4, L5, L6, L7, L8, L9, L10, ⟨lids, L11⟩, L12⟩ :=
      case_logs_loop_spec r.tests (statusDerived (summaryApplied run r)) w
    cases herr : (case_logs_loop (statusDerived (summaryApplied run r)) w r.tests).2.2 with
    | none =>
      obtain ⟨F1, F2, F3, F4, F5, F6, F7, F8, F9, F10, F11, F12, ⟨ids, F13⟩, F14, F15⟩ :=
        finish_test_results_spec
          (case_logs_loop (statusDerived (summaryApplied run r)) w r.tests).1
          (case_logs_loop (statusDerived (summaryApplied run r)) w r.tests).2.1
      rw [L1, L2] at F14
      rw [L5] at F12
      rw [L11] at F13
      refine ⟨F1.trans L1, F2.trans L2, F3.trans L3, F5.trans L5,
        ?_, ⟨_, F11, F12⟩, F14, fun hm => by simp at hm, fun m2 hm => by simp at hm,
        F15.trans (by rw [F4])⟩
      · have hst : (finish_test_results
            (case_logs_loop (statusDerived (summaryApplied run r)) w r.tests).1
            (case_logs_loop (statusDerived (summaryApplied run r)) w r.tests).2.1).1.status =
            (statusDerived (summaryApplied run r)).status := F4.trans L4
        rw [hst]
        by_cases hc : 0 < (summaryApplied run r).failed_tests ∨
            0 < (summaryApplied run r).error_tests
        · right; left
          simp [statusDerived, hc]
        · left
          simp [statusDerived, hc]
    | some e =>
      obtain ⟨F1, F2, F3, F4, F5, F6, F7, F8, F9, F10, F11, F12, ⟨ids, F13⟩, F14, F15⟩ :=
        finish_test_results_spec
          { (case_logs_loop (statusDerived (summaryApplied run r)) w r.tests).1 with
            status := TestStatus.error,
            log_ids := (case_logs_loop (statusDerived (summaryApplied run r)) w r.tests).1.log_ids ++ [(((case_logs_loop (statusDerived (summaryApplied run r)) w r.tests).2.1).createLog (procErrorLogPayload { (case_logs_loop (statusDerived (summaryApplied run r)) w r.tests).1 with status := TestStatus.error } (pyStr e))).1] }
          (((case_logs_loop (statusDerived (summaryApplied run r)) w r.tests).2.1).createLog (procErrorLogPayload { (case_logs_loop (statusDerived (summaryApplied run r)) w r.tests).1 with status := TestStatus.error } (pyStr e))).2
      rw [L1] at F1
      rw [L2] at F2
      rw [L3] at F3
      rw [L5] at F5
      rw [L1, L2] at F14
      rw [L5] at F12
      exact ⟨F1, F2, F3, F5, Or.inr (Or.inr F4), ⟨_, F11, F12⟩, F14,
        fun hm => by simp at hm, fun m2 hm => by simp at hm, F15⟩

theorem process_parsed_spec (run : TestRunResult) (r : Report) (w : World) :
    (process_test_results run (.parsed r) w).1.total_tests =
      (r.summary.getD emptySummary).total.getD 0 ∧
    (process_test_results run (.parsed r) w).1.passed_tests =
      (r.summary.getD emptySummary).passed.getD 0 ∧
    (process_test_results run (.parsed r) w).1.failed_tests =
      (r.summary.getD emptySummary).failed.getD 0 ∧
    (process_test_results run (.parsed r) w).1.error_tests =
      (r.summary.getD emptySummary).error.getD 0 ∧
    (process_test_results run (.parsed r) w).1.skipped_tests =
      (r.summary.getD emptySummary).skipped.getD 0 ∧
    ((∀ tc ∈ r.tests, ¬(tc.outcome.getD "unknown" = "skipped")) →
      (process_test_results run (.parsed r) w).1.status =
        (if 0 < (r.summary.getD emptySummary).failed.getD 0 ∨
            0 < (r.summary.getD emptySummary).error.getD 0 then
          TestStatus.failed else TestStatus.passed)) ∧
    ((∃ tc ∈ r.tests, tc.outcome.getD "unknown" = "skipped") →
      (process_test_results run (.parsed r) w).1.status = TestStatus.error) := by
  simp only [process_test_results]
  obtain ⟨L1, L2, L3, L4, L5, L6, L7, L8, L9, L10, ⟨lids, L11⟩, L12⟩ :=
    case_logs_loop_spec r.tests (statusDerived (summaryApplied run r)) w
  cases herr : (case_logs_loop (statusDerived (summaryApplied run r)) w r.tests).2.2 with
  | none =>
    obtain ⟨F1, F2, F3, F4, F5, F6, F7, F8, F9, F10, F11, F12, ⟨ids, F13⟩, F14, F15⟩ :=
      finish_test_results_spec
        (case_logs_loop (statusDerived (summaryApplied run r)) w r.tests).1
        (case_logs_loop (statusDerived (summaryApplied run r)) w r.tests).2.1
    refine ⟨F6.trans L6, F7.trans L7, F8.trans L8, F9.trans L9, F10.trans L10,
      fun _ => F4.trans L4, ?_⟩
    rintro ⟨tc, htc, hskip⟩
    exact absurd hskip (L12.mp herr tc htc)
  | some e =>
    obtain ⟨F1, F2, F3, F4, F5, F6, F7, F8, F9, F10, F11, F12, ⟨ids, F13⟩, F14, F15⟩ :=
      finish_test_results_spec
        { (case_logs_loop (statusDerived (summaryApplied run r)) w r.tests).1 with
          status := TestStatus.error,
          log_ids := (case_logs_loop (statusDerived (summaryApplied run r)) w r.tests).1.log_ids ++ [(((case_logs_loop (statusDerived (summaryApplied run r)) w r.tests).2.1).createLog (procErrorLogPayload { (case_logs_loop (statusDerived (summaryApplied run r)) w r.tests).1 with status := TestStatus.error } (pyStr e))).1] }
        (((case_logs_loop (statusDerived (summaryApplied run r)) w r.tests).2.1).createLog (procErrorLogPayload { (case_logs_loop (statusDerived (summaryApplied run r)) w r.tests).1 with status := TestStatus.error } (pyStr e))).2
    refine ⟨F6.trans L6, F7.trans L7, F8.trans L8, F9.trans L9, F10.trans L10, ?_, fun _ => F4⟩
    intro hnone
    have : (case_logs_loop (statusDerived (summaryApplied run r)) w r.tests).2.2 = none :=
      L12.mpr hnone
    rw [herr] at this
    simp at this

theorem exec_error_handler_spec (run_id : String) (run : TestRunResult) (e : PyErr)
    (w : World) :
    (exec_error_handler run_id run e w).1.status = TestStatus.error ∧
    (exec_error_handler run_id run e w).1.id = run.id ∧
    (exec_error_handler run_id run e w).1.project_id = run.project_id ∧
    (exec_error_handler run_id run e w).1.service_id = run.service_id ∧
    (exec_error_handler run_id run e w).1.start_time = run.start_time ∧
    (exec_error_handler run_id run e w).1.total_tests = run.total_tests ∧
    (exec_error_handler run_id run e w).1.passed_tests = run.passed_tests ∧
    (exec_error_handler run_id run e w).1.failed_tests = run.failed_tests ∧
    (exec_error_handler run_id run e w).1.error_tests = run.error_tests ∧
    (exec_error_handler run_id run e w).1.skipped_tests = run.skipped_tests ∧
    (exec_error_handler run_id run e w).1.end_time = some w.clock ∧
    (exec_error_handler run_id run e w).1.duration_seconds =
      some ((w.clock : Int) - (run.start_time : Int)) ∧
    (exec_error_handler run_id run e w).1.log_ids.getLast? = some w.sink.nextId ∧
    (∃ lc, (w.sink.nextId, lc) ∈ (exec_error_handler run_id run e w).2.sink.entries ∧
      lc.severity = Severity.error) ∧
    storeGet (exec_error_handler run_id run e w).2.store (run.project_id, run.id) =
      some (serialize (exec_error_handler run_id run e w).1) := by
  refine ⟨rfl, rfl, rfl, rfl, rfl, rfl, rfl, rfl, rfl, rfl, rfl, rfl, ?_, ?_, ?_⟩
  · exact List.getLast?_concat _
  · refine ⟨execErrorLogPayload { run with status := TestStatus.error, end_time := some w.tick.1, duration_seconds := some ((w.tick.1 : Int) - (run.start_time : Int)) } run_id (pyStr e), ?_, rfl⟩
    simp [exec_error_handler, World.createLog, World.tick, save_test_run_metadata]
  · unfold exec_error_handler save_test_run_metadata
    exact storeGet_storeSet _ _ _

theorem run_test_in_container_spec (run : TestRunResult) (env : ExecEnv) (w : World) :
    (run_test_in_container run env w).1.id = run.id ∧
    (run_test_in_container run env w).1.project_id = run.project_id ∧
    (run_test_in_container run env w).1.service_id = run.service_id ∧
    (run_test_in_container run env w).1.status = run.status ∧
    (run_test_in_container run env w).1.start_time = run.start_time ∧
    (env.dockerAvailable2 = false → (run_test_in_container run env w).2.2 =
      some (.runtime "Docker is not available on the system")) ∧
    (∀ m, env.execExc = some m → env.dockerAvailable2 = true →
      (run_test_in_container run env w).2.2 = some (.exc m)) ∧
    (env.dockerAvailable2 = true → env.execExc = none → env.copyRaises = false →
      run_test_in_container run env w = (run, w, none)) := by
  by_cases hd : env.dockerAvailable2 = false
  · simp only [run_test_in_container]
    rw [if_pos hd]
    exact ⟨rfl, rfl, rfl, rfl, rfl, fun _ => rfl,
      fun m hm h2 => by rw [h2] at hd; simp at hd,
      fun h1 _ _ => by rw [h1] at hd; simp at hd⟩
  · simp only [run_test_in_container]
    rw [if_neg hd]
    cases hexc : env.execExc with
    | some m =>
      refine ⟨rfl, rfl, rfl, rfl, rfl, fun h => absurd h hd, ?_,
        fun _ h2 _ => by simp at h2⟩
      intro m2 hm _
      injection hm with h2
      rw [h2]
    | none =>
      cases hcopy : env.copyRaises with
      | false =>
        exact ⟨rfl, rfl, rfl, rfl, rfl, fun h => absurd h hd,
          fun m2 hm _ => by simp at hm, fun _ _ _ => rfl⟩
      | true =>
        by_cases hse : env.stderrContent ≠ ""
        · rw [if_pos hse]
          have hW : severityAttr "WARNING" = none := rfl
          rw [hW]
          exact ⟨rfl, rfl, rfl, rfl, rfl, fun h => absurd h hd,
            fun m2 hm _ => by simp at hm, fun _ _ h3 => by simp at h3⟩
        · rw [if_neg hse]
          have hI : severityAttr "INFO" = some Severity.info := rfl
          rw [hI]
          exact ⟨rfl, rfl, rfl, rfl, rfl, fun h => absurd h hd,
            fun m2 hm _ => by simp at hm, fun _ _ h3 => by simp at h3⟩

/-- Claim C2: executing an unknown run id fails with the typed not-found
error; otherwise execute_test_run never propagates an exception — the caller
always receives a valid TestRun in a terminal state with its end time set,
the final snapshot saved, and, when the container step raised, an error status
with duration set and an error log entry appended last. -/
theorem c2_execute_never_propagates (run_id : String) (env : ExecEnv) (w : World) :
    (get_test_run w.store run_id = none →
      (execute_test_run run_id env w).1 =
        Except.error ("Test run with ID " ++ run_id ++ " not found")) ∧
    (∀ tr, get_test_run w.store run_id = some tr →
      ∃ r w2, execute_test_run run_id env w = (Except.ok r, w2) ∧
        (r.status = TestStatus.passed ∨ r.status = TestStatus.failed ∨
          r.status = TestStatus.error) ∧
        r.end_time.isSome = true ∧
        (env.dockerAvailable = true → r.duration_seconds.isSome = true) ∧
        storeGet w2.store (r.project_id, r.id) = some (serialize r) ∧
        (env.dockerAvailable = true →
          (env.dockerAvailable2 = false ∨ env.execExc ≠ none) →
          r.status = TestStatus.error ∧ r.duration_seconds.isSome = true ∧
          ∃ logId lc, r.log_ids.getLast? = some logId ∧
            (logId, lc) ∈ w2.sink.entries ∧ lc.severity = Severity.error)) := by
  constructor
  · intro hnone
    simp only [execute_test_run, hnone]
  · intro tr hfound
    simp only [execute_test_run, hfound]
    by_cases hdock : env.dockerAvailable = false
    · rw [if_pos hdock]
      refine ⟨_, _, rfl, Or.inr (Or.inr rfl), rfl, ?_, ?_, ?_⟩
      · intro h
        rw [h] at hdock
        simp at hdock
      · unfold save_test_run_metadata
        exact storeGet_storeSet _ _ _
      · intro h
        rw [h] at hdock
        simp at hdock
    · rw [if_neg hdock]
      obtain ⟨R1, R2, R3, R4, R5, R6, R7, R8⟩ :=
        run_test_in_container_spec { tr with status := TestStatus.running } env
          (save_test_run_metadata { tr with status := TestStatus.running } w)
      cases hrtc : (run_test_in_container { tr with status := TestStatus.running } env (save_test_run_metadata { tr with status := TestStatus.running } w)).2.2 with
      | some e =>
        obtain ⟨H1, H2, H3, H4, H5, H6, H7, H8, H9, H10, H11, H12, H13, H14, H15⟩ :=
          exec_error_handler_spec run_id (run_test_in_container { tr with status := TestStatus.running } env (save_test_run_metadata { tr with status := TestStatus.running } w)).1 e (run_test_in_container { tr with status := TestStatus.running } env (save_test_run_metadata { tr with status := TestStatus.running } w)).2.1
        obtain ⟨lc, hmem, hsev⟩ := H14
        refine ⟨_, _, rfl, Or.inr (Or.inr H1), ?_, ?_, ?_, ?_⟩
        · rw [H11]
          rfl
        · intro _
          rw [H12]
          rfl
        · have hs := H15
          rw [← H3, ← H2] at hs
          exact hs
        · intro _ _
          refine ⟨H1, ?_, _, lc, H13, hmem, hsev⟩
          rw [H12]
          rfl
      | none =>
        obtain ⟨P1, P2, P3, P4, P5, P6, P7, P8, P9, P10⟩ :=
          process_test_results_spec (run_test_in_container { tr with status := TestStatus.running } env (save_test_run_metadata { tr with status := TestStatus.running } w)).1 env.artifact (run_test_in_container { tr with status := TestStatus.running } env (save_test_run_metadata { tr with status := TestStatus.running } w)).2.1
        cases hproc : (process_test_results (run_test_in_container { tr with status := TestStatus.running } env (save_test_run_metadata { tr with status := TestStatus.running } w)).1 env.artifact (run_test_in_container { tr with status := TestStatus.running } env (save_test_run_metadata { tr with status := TestStatus.running } w)).2.1).2.2 with
        | none =>
          obtain ⟨t, he, hd2⟩ := P6
          refine ⟨_, _, rfl, P5, ?_, ?_, ?_, ?_⟩
          · rw [he]
            rfl
          · intro _
            rw [hd2]
            rfl
          · have hs := P7
            rw [← P2, ← P1] at hs
            exact hs
          · rintro _ (h2 | h3)
            · rw [R6 h2] at hrtc
              simp at hrtc
            · by_cases hd2b : env.dockerAvailable2 = false
              · rw [R6 hd2b] at hrtc
                simp at hrtc
              · obtain ⟨m, hm⟩ := Option.ne_none_iff_exists'.mp h3
                have hdt2 : env.dockerAvailable2 = true := by
                  revert hd2b
                  cases env.dockerAvailable2 <;> simp
                rw [R7 m hm hdt2] at hrtc
                simp at hrtc
        | some e =>
          obtain ⟨H1, H2, H3, H4, H5, H6, H7, H8, H9, H10, H11, H12, H13, H14, H15⟩ :=
            exec_error_handler_spec run_id (process_test_results (run_test_in_container { tr with status := TestStatus.running } env (save_test_run_metadata { tr with status := TestStatus.running } w)).1 env.artifact (run_test_in_container { tr with status := TestStatus.running } env (save_test_run_metadata { tr with status := TestStatus.running } w)).2.1).1 e (process_test_results (run_test_in_container { tr with status := TestStatus.running } env (save_test_run_metadata { tr with status := TestStatus.running } w)).1 env.artifact (run_test_in_container { tr with status := TestStatus.running } env (save_test_run_metadata { tr with status := TestStatus.running } w)).2.1).2.1
          obtain ⟨lc, hmem, hsev⟩ := H14
          refine ⟨_, _, rfl, Or.inr (Or.inr H1), ?_, ?_, ?_, ?_⟩
          · rw [H11]
            rfl
          · intro _
            rw [H12]
            rfl
          · have hs := H15
            rw [← H3, ← H2] at hs
            exact hs
          · intro _ _
            refine ⟨H1, ?_, _, lc, H13, hmem, hsev⟩
            rw [H12]
            rfl

/-- Claim C1 amended: through execute_test_run with the runtime reachable and
no container-step exception, an absent or unparseable artifact yields terminal
state error; a parsed artifact has its summary counters copied verbatim
(missing summary meaning all counts 0), and the final state is passed exactly
when failed = 0, error = 0 and no per-case entry has outcome skipped — when
failed or error is positive, or a skipped entry is present, the final state is
error, because the completion-log (or skip-log) severity lookup
Severity.WARNING raises AttributeError and the top-level handler forces
error. -/
theorem c1_amended (run_id : String) (env : ExecEnv) (w : World) (tr : TestRunResult)
    (hfound : get_test_run w.store run_id = some tr)
    (h1 : env.dockerAvailable = true) (h2 : env.dockerAvailable2 = true)
    (h3 : env.execExc = none) (h4 : env.copyRaises = false) :
    ∃ r w2, execute_test_run run_id env w = (Except.ok r, w2) ∧
      (env.artifact = Artifact.missing → r.status = TestStatus.error) ∧
      (∀ m, env.artifact = Artifact.malformed m → r.status = TestStatus.error) ∧
      (∀ rep, env.artifact = Artifact.parsed rep →
        r.total_tests = (rep.summary.getD emptySummary).total.getD 0 ∧
        r.passed_tests = (rep.summary.getD emptySummary).passed.getD 0 ∧
        r.failed_tests = (rep.summary.getD emptySummary).failed.getD 0 ∧
        r.error_tests = (rep.summary.getD emptySummary).error.getD 0 ∧
        r.skipped_tests = (rep.summary.getD emptySummary).skipped.getD 0 ∧
        ((0 < (rep.summary.getD emptySummary).failed.getD 0 ∨
          0 < (rep.summary.getD emptySummary).error.getD 0) →
          r.status = TestStatus.error) ∧
        ((∃ tc ∈ rep.tests, tc.outcome.getD "unknown" = "skipped") →
          r.status = TestStatus.error) ∧
        ((¬(0 < (rep.summary.getD emptySummary).failed.getD 0 ∨
            0 < (rep.summary.getD emptySummary).error.getD 0) ∧
          (∀ tc ∈ rep.tests, ¬(tc.outcome.getD "unknown" = "skipped"))) →
          r.status = TestStatus.passed)) := by
  simp only [execute_test_run, hfound]
  rw [if_neg (by simp [h1])]
  obtain ⟨R1, R2, R3, R4, R5, R6, R7, R8⟩ :=
    run_test_in_container_spec { tr with status := TestStatus.running } env (save_test_run_metadata { tr with status := TestStatus.running } w)
  rw [R8 h2 h3 h4]
  cases harti : env.artifact with
  | missing =>
    obtain ⟨P1, P2, P3, P4, P5, P6, P7, P8, P9, P10⟩ :=
      process_test_results_spec { tr with status := TestStatus.running } Artifact.missing (save_test_run_metadata { tr with status := TestStatus.running } w)
    cases hp : (process_test_results { tr with status := TestStatus.running } Artifact.missing (save_test_run_metadata { tr with status := TestStatus.running } w)).2.2 with
    | none =>
      have hcontra := P10.mp hp
      rw [P8 rfl] at hcontra
      simp at hcontra
    | some e =>
      obtain ⟨H1, H2, H3, H4, H5, H6, H7, H8, H9, H10, H11, H12, H13, H14, H15⟩ :=
        exec_error_handler_spec run_id
          (process_test_results { tr with status := TestStatus.running } Artifact.missing (save_test_run_metadata { tr with status := TestStatus.running } w)).1 e
          (process_test_results { tr with status := TestStatus.running } Artifact.missing (save_test_run_metadata { tr with status := TestStatus.running } w)).2.1
      exact ⟨_, _, rfl, fun _ => H1, fun m hm => by simp at hm, fun rep hm => by simp at hm⟩
  | malformed m =>
    obtain ⟨P1, P2, P3, P4, P5, P6, P7, P8, P9, P10⟩ :=
      process_test_results_spec { tr with status := TestStatus.running } (Artifact.malformed m) (save_test_run_metadata { tr with status := TestStatus.running } w)
    cases hp : (process_test_results { tr with status := TestStatus.running } (Artifact.malformed m) (save_test_run_metadata { tr with status := TestStatus.running } w)).2.2 with
    | none =>
      have hcontra := P10.mp hp
      rw [P9 m rfl] at hcontra
      simp at hcontra
    | some e =>
      obtain ⟨H1, H2, H3, H4, H5, H6, H7, H8, H9, H10, H11, H12, H13, H14, H15⟩ :=
        exec_error_handler_spec run_id
          (process_test_results { tr with status := TestStatus.running } (Artifact.malformed m) (save_test_run_metadata { tr with status := TestStatus.running } w)).1 e
          (process_test_results { tr with status := TestStatus.running } (Artifact.malformed m) (save_test_run_metadata { tr with status := TestStatus.running } w)).2.1
      exact ⟨_, _, rfl, fun hm => by simp at hm, fun m2 hm => H1, fun rep hm => by simp at hm⟩
  | parsed rep =>
    obtain ⟨P1, P2, P3, P4, P5, P6, P7, P8, P9, P10⟩ :=
      process_test_results_spec { tr with status := TestStatus.running } (Artifact.parsed rep) (save_test_run_metadata { tr with status := TestStatus.running } w)
    obtain ⟨C1, C2, C3, C4, C5, S1, S2⟩ :=
      process_parsed_spec { tr with status := TestStatus.running } rep (save_test_run_metadata { tr with status := TestStatus.running } w)
    cases hp : (process_test_results { tr with status := TestStatus.running } (Artifact.parsed rep) (save_test_run_metadata { tr with status := TestStatus.running } w)).2.2 with
    | none =>
      refine ⟨_, _, rfl, fun hm => by simp at hm, fun m2 hm => by simp at hm, ?_⟩
      rintro rep2 hrep
      injection hrep with hrep2
      subst hrep2
      refine ⟨C1, C2, C3, C4, C5, ?_, ?_, ?_⟩
      · intro hpos
        by_cases hsk : ∃ tc ∈ rep.tests, tc.outcome.getD "unknown" = "skipped"
        · have hcontra := (S2 hsk).symm.trans (P10.mp hp)
          simp at hcontra
        · have hns : ∀ tc ∈ rep.tests, ¬(tc.outcome.getD "unknown" = "skipped") :=
            fun tc htc hc => hsk ⟨tc, htc, hc⟩
          have hst := S1 hns
          rw [if_pos hpos] at hst
          have hcontra := hst.symm.trans (P10.mp hp)
          simp at hcontra
      · intro hsk
        have hcontra := (S2 hsk).symm.trans (P10.mp hp)
        simp at hcontra
      · intro _
        exact P10.mp hp
    | some e =>
      obtain ⟨H1, H2, H3, H4, H5, H6, H7, H8, H9, H10, H11, H12, H13, H14, H15⟩ :=
        exec_error_handler_spec run_id
          (process_test_results { tr with status := TestStatus.running } (Artifact.parsed rep) (save_test_run_metadata { tr with status := TestStatus.running } w)).1 e
          (process_test_results { tr with status := TestStatus.running } (Artifact.parsed rep) (save_test_run_metadata { tr with status := TestStatus.running } w)).2.1
      refine ⟨_, _, rfl, fun hm => by simp at hm, fun m2 hm => by simp at hm, ?_⟩
      rintro rep2 hrep
      injection hrep with hrep2
      subst hrep2
      refine ⟨H6.trans C1, H7.trans C2, H8.trans C3, H9.trans C4, H10.trans C5,
        fun _ => H1, fun _ => H1, ?_⟩
      rintro ⟨hnf, hns⟩
      have hstp := S1 hns
      rw [if_neg hnf] at hstp
      have := P10.mpr hstp
      rw [hp] at this
      simp at this

/-- Claim C7: discovery on a nonexistent test directory returns successfully
with zero filesystem-sourced tests and a populated filesystem_error metadata
entry, and still queries the manual-test catalog bounded to 100 records,
appending its synthesized tests to the result (a catalog exception is
likewise recovered into an error metadata entry). -/
theorem c7_discovery_resilience (project_id service_id service_name project_path
    tests_dir_path : String) (env : CollectEnv) (w : World)
    (hdir : env.dirExists = false) :
    metaGet (collect_service_tests project_id service_id service_name project_path tests_dir_path env w).1.metadata "filesystem_error" =
      some ("Tests directory does not exist: " ++
        (project_path ++ "/" ++ tests_dir_path ++ "/" ++ service_name)) ∧
    (∀ t, CollectedTest.fsItem t ∉ (collect_service_tests project_id service_id service_name project_path tests_dir_path env w).1.tests) ∧
    (env.dbRaises = none → (collect_service_tests project_id service_id service_name project_path tests_dir_path env w).1.tests =
      mapIdxFrom (fun i t => CollectedTest.dbItem (dbTestToObj service_name i t)) 0
        (env.dbTests.take 100)) ∧
    (∀ m, env.dbRaises = some m → (collect_service_tests project_id service_id service_name project_path tests_dir_path env w).1.tests = [] ∧
      metaGet (collect_service_tests project_id service_id service_name project_path tests_dir_path env w).1.metadata "error" = some m) := by
  simp only [collect_service_tests]
  rw [if_neg (by simp [hdir])]
  cases hdb : env.dbRaises with
  | none =>
    refine ⟨?_, ?_, fun _ => ?_, fun m hm => by simp at hm⟩
    · exact metaGet_metaSet_self [("tests_path", project_path ++ "/" ++ tests_dir_path ++ "/" ++ service_name), ("collection_command", "pytest " ++ (project_path ++ "/" ++ tests_dir_path ++ "/" ++ service_name) ++ " --collect-only -q")] "filesystem_error" ("Tests directory does not exist: " ++ (project_path ++ "/" ++ tests_dir_path ++ "/" ++ service_name))
    · intro t
      exact fsItem_not_mem_mapIdx service_name (env.dbTests.take 100) 0 t
    · exact rfl
  | some m =>
    refine ⟨?_, fun t h => (List.not_mem_nil _) h, fun hm => by simp at hm,
      fun m2 hm2 => ?_⟩
    · exact (metaGet_metaSet_other (metaSet [("tests_path", project_path ++ "/" ++ tests_dir_path ++ "/" ++ service_name), ("collection_command", "pytest " ++ (project_path ++ "/" ++ tests_dir_path ++ "/" ++ service_name) ++ " --collect-only -q")] "filesystem_error" ("Tests directory does not exist: " ++ (project_path ++ "/" ++ tests_dir_path ++ "/" ++ service_name)))
        "filesystem_error" "error" m (by decide)).trans
        (metaGet_metaSet_self [("tests_path", project_path ++ "/" ++ tests_dir_path ++ "/" ++ service_name), ("collection_command", "pytest " ++ (project_path ++ "/" ++ tests_dir_path ++ "/" ++ service_name) ++ " --collect-only -q")] "filesystem_error" ("Tests directory does not exist: " ++ (project_path ++ "/" ++ tests_dir_path ++ "/" ++ service_name)))
    · refine ⟨rfl, ?_⟩
      injection hm2 with hm3
      rw [← hm3]
      exact metaGet_metaSet_self (metaSet [("tests_path", project_path ++ "/" ++ tests_dir_path ++ "/" ++ service_name), ("collection_command", "pytest " ++ (project_path ++ "/" ++ tests_dir_path ++ "/" ++ service_name) ++ " --collect-only -q")] "filesystem_error" ("Tests directory does not exist: " ++ (project_path ++ "/" ++ tests_dir_path ++ "/" ++ service_name))) "error" m

/-- Claim C8 amended: every run finished through result processing or through
the top-level exception handler has its end time set at that transition and
duration_seconds equal to end time minus the run's start time; the
runtime-unavailable short-circuit of execute_test_run instead sets the end
time but leaves duration_seconds unchanged from the stored record. -/
theorem c8_amended :
    (∀ (run : TestRunResult) (artifact : Artifact) (w : World), ∃ t,
      (process_test_results run artifact w).1.start_time = run.start_time ∧
      (process_test_results run artifact w).1.end_time = some t ∧
      (process_test_results run artifact w).1.duration_seconds =
        some ((t : Int) - ((process_test_results run artifact w).1.start_time : Int))) ∧
    (∀ (run_id : String) (run : TestRunResult) (e : PyErr) (w : World),
      (exec_error_handler run_id run e w).1.start_time = run.start_time ∧
      (exec_error_handler run_id run e w).1.end_time = some w.clock ∧
      (exec_error_handler run_id run e w).1.duration_seconds =
        some ((w.clock : Int) - ((exec_error_handler run_id run e w).1.start_time : Int))) ∧
    (∀ (run_id : String) (env : ExecEnv) (w : World) (tr : TestRunResult),
      get_test_run w.store run_id = some tr → env.dockerAvailable = false →
      ∃ r w2, execute_test_run run_id env w = (Except.ok r, w2) ∧
        r.status = TestStatus.error ∧ r.end_time.isSome = true ∧
        r.duration_seconds = tr.duration_seconds) := by
  refine ⟨?_, ?_, ?_⟩
  · intro run artifact w
    obtain ⟨P1, P2, P3, P4, P5, P6, P7, P8, P9, P10⟩ :=
      process_test_results_spec run artifact w
    obtain ⟨t, he, hd⟩ := P6
    refine ⟨t, P4, he, ?_⟩
    rw [P4]
    exact hd
  · intro run_id run e w
    obtain ⟨H1, H2, H3, H4, H5, H6, H7, H8, H9, H10, H11, H12, H13, H14, H15⟩ :=
      exec_error_handler_spec run_id run e w
    refine ⟨H5, H11, ?_⟩
    rw [H5]
    exact H12
  · intro run_id env w tr hfound hdock
    simp only [execute_test_run, hfound]
    rw [if_pos hdock]
    exact ⟨_, _, rfl, rfl, rfl, rfl⟩

/-- Witness for the amended C1 at concrete arguments: a stored fresh run
executed against a parsed fully passing artifact. -/
theorem c1_amended_witness :
    ∃ r w2, execute_test_run (create_test_run req1 w0).1.id
        ({ dockerAvailable := true, artifact := .parsed passingReport } : ExecEnv)
        (create_test_run req1 w0).2 = (Except.ok r, w2) ∧
      (({ dockerAvailable := true, artifact := .parsed passingReport } : ExecEnv).artifact = Artifact.missing → r.status = TestStatus.error) ∧
      (∀ m, ({ dockerAvailable := true, artifact := .parsed passingReport } : ExecEnv).artifact = Artifact.malformed m → r.status = TestStatus.error) ∧
      (∀ rep, ({ dockerAvailable := true, artifact := .parsed passingReport } : ExecEnv).artifact = Artifact.parsed rep →
        r.total_tests = (rep.summary.getD emptySummary).total.getD 0 ∧
        r.passed_tests = (rep.summary.getD emptySummary).passed.getD 0 ∧
        r.failed_tests = (rep.summary.getD emptySummary).failed.getD 0 ∧
        r.error_tests = (rep.summary.getD emptySummary).error.getD 0 ∧
        r.skipped_tests = (rep.summary.getD emptySummary).skipped.getD 0 ∧
        ((0 < (rep.summary.getD emptySummary).failed.getD 0 ∨
          0 < (rep.summary.getD emptySummary).error.getD 0) →
          r.status = TestStatus.error) ∧
        ((∃ tc ∈ rep.tests, tc.outcome.getD "unknown" = "skipped") →
          r.status = TestStatus.error) ∧
        ((¬(0 < (rep.summary.getD emptySummary).failed.getD 0 ∨
            0 < (rep.summary.getD emptySummary).error.getD 0) ∧
          (∀ tc ∈ rep.tests, ¬(tc.outcome.getD "unknown" = "skipped"))) →
          r.status = TestStatus.passed)) :=
  c1_amended (create_test_run req1 w0).1.id
    ({ dockerAvailable := true, artifact := .parsed passingReport } : ExecEnv)
    (create_test_run req1 w0).2 (create_test_run req1 w0).1
    (by decide) rfl rfl rfl rfl

/-- Witness for C7 at concrete arguments: discovery with the service test
directory absent and an empty catalog. -/
theorem c7_discovery_resilience_witness :
    metaGet (collect_service_tests "P1" "S1" "svc" "/proj" "tests" ({ dirExists := false } : CollectEnv) w0).1.metadata "filesystem_error" =
      some ("Tests directory does not exist: " ++
        ("/proj" ++ "/" ++ "tests" ++ "/" ++ "svc")) ∧
    (∀ t, CollectedTest.fsItem t ∉ (collect_service_tests "P1" "S1" "svc" "/proj" "tests" ({ dirExists := false } : CollectEnv) w0).1.tests) ∧
    (({ dirExists := false } : CollectEnv).dbRaises = none → (collect_service_tests "P1" "S1" "svc" "/proj" "tests" ({ dirExists := false } : CollectEnv) w0).1.tests =
      mapIdxFrom (fun i t => CollectedTest.dbItem (dbTestToObj "svc" i t)) 0
        ((({ dirExists := false } : CollectEnv).dbTests).take 100)) ∧
    (∀ m, ({ dirExists := false } : CollectEnv).dbRaises = some m → (collect_service_tests "P1" "S1" "svc" "/proj" "tests" ({ dirExists := false } : CollectEnv) w0).1.tests = [] ∧
      metaGet (collect_service_tests "P1" "S1" "svc" "/proj" "tests" ({ dirExists := false } : CollectEnv) w0).1.metadata "error" = some m) :=
  c7_discovery_resilience "P1" "S1" "svc" "/proj" "tests"
    ({ dirExists := false } : CollectEnv) w0 rfl

end PolyMicro
